import Mathlib

/-!
Shallow embedding of the NES-Emulator 6502 CPU core (Rust sources under
`src/src/cpu/` together with `src/src/mem.rs` and `src/src/opcodes.rs`),
and theorems checking the natural-language specification against it.

Machine integers are modelled as `Nat` with explicit reductions modulo
2^8 / 2^16 exactly where the Rust code wraps.  Code that can panic
(array indexing past the end of the 0xFFFF-byte memory array, the
`unreachable!` arms) is modelled with `Option`: `none` is a panic.
-/

namespace NES

/-- CPU state, mirroring `struct CPU` in `src/src/cpu/mod.rs`.
The Rust field `memory : [u8; 0xFFFF]` is a 0xFFFF-byte array; it is
modelled as a total function together with the bounds check performed
by Rust array indexing inside `mem_read` / `mem_write`. -/
structure CPU where
  register_a : Nat
  register_x : Nat
  register_y : Nat
  stack_pointer : Nat
  status : Nat
  program_counter : Nat
  memory : Nat → Nat

/-- Constant `STACK` from `src/src/cpu/mod.rs`. -/
def STACK : Nat := 0x100

/-- Constant `STACK_RESET` from `src/src/cpu/mod.rs`. -/
def STACK_RESET : Nat := 0xFD

/-- The length of the Rust array `memory: [u8; 0xFFFF]`. -/
def MEMORY_LEN : Nat := 0xFFFF

/-- Rust `mem_read` (`impl Mem for CPU` in `src/src/mem.rs`):
`self.memory[addr as usize]`.  Indexing out of bounds panics. -/
def mem_read (cpu : CPU) (addr : Nat) : Option Nat :=
  if addr < MEMORY_LEN then some (cpu.memory addr) else none

/-- Rust `mem_write` (`impl Mem for CPU` in `src/src/mem.rs`):
`self.memory[addr as usize] = data`.  Indexing out of bounds panics. -/
def mem_write (cpu : CPU) (addr data : Nat) : Option CPU :=
  if addr < MEMORY_LEN then
    some { cpu with memory := fun a => if a = addr then data else cpu.memory a }
  else none

/-- Rust `mem_read_u16` (default method in `src/src/mem.rs`): little-endian
16-bit read, the high byte at `pos.wrapping_add(1)`. -/
def mem_read_u16 (cpu : CPU) (pos : Nat) : Option Nat := do
  let lo ← mem_read cpu pos
  let hi ← mem_read cpu ((pos + 1) % 65536)
  return (hi <<< 8) ||| lo

/-- Rust `mem_write_u16` (default method in `src/src/mem.rs`): little-endian
16-bit write, low byte first. -/
def mem_write_u16 (cpu : CPU) (pos data : Nat) : Option CPU := do
  let hi := (data >>> 8) % 256
  let lo := data &&& 0xFF
  let cpu ← mem_write cpu pos lo
  mem_write cpu ((pos + 1) % 65536) hi

/-- Bit masks from `src/src/cpu/processor_status.rs`. -/
def CARRY_BIT : Nat := 0b00000001

/-- Mask `ZERO_BIT` from `src/src/cpu/processor_status.rs`. -/
def ZERO_BIT : Nat := 0b00000010

/-- Mask `INTERRUPT_DISABLE_BIT` from `src/src/cpu/processor_status.rs`. -/
def INTERRUPT_DISABLE_BIT : Nat := 0b00000100

/-- Mask `DECIMAL_BIT` from `src/src/cpu/processor_status.rs`. -/
def DECIMAL_BIT : Nat := 0b00001000

/-- Mask `OVERFLOW_BIT` from `src/src/cpu/processor_status.rs`. -/
def OVERFLOW_BIT : Nat := 0b01000000

/-- Mask `NEGATIVE_BIT` from `src/src/cpu/processor_status.rs`. -/
def NEGATIVE_BIT : Nat := 0b10000000

/-- Rust bitwise NOT on a `u8` mask (`!CARRY_BIT` and friends). -/
def not8 (x : Nat) : Nat := (x % 256) ^^^ 0xFF

/-- Enum `ProcessorStatus` from `src/src/cpu/processor_status.rs`. -/
inductive ProcessorStatus where
  | Carry
  | Zero
  | InterruptDisable
  | Decimal
  | BFlag
  | Unused
  | Overflow
  | Negative

/-- Rust `is_status_flag_set` from `src/src/cpu/processor_status.rs`.
The `BFlag` and `Unused` arms are `unreachable!` (a panic, hence `none`). -/
def is_status_flag_set (cpu : CPU) (flag : ProcessorStatus) : Option Bool :=
  match flag with
  | .Carry => some (cpu.status &&& CARRY_BIT == 1)
  | .Zero => some (cpu.status &&& ZERO_BIT == 0b10)
  | .InterruptDisable => some (cpu.status &&& INTERRUPT_DISABLE_BIT == 0b100)
  | .Decimal => some (cpu.status &&& DECIMAL_BIT == 0b1000)
  | .BFlag => none
  | .Unused => none
  | .Overflow => some (cpu.status &&& OVERFLOW_BIT == 0b1000000)
  | .Negative => some (cpu.status &&& NEGATIVE_BIT == 0b10000000)

/-- Rust `update_carry_flag` from `src/src/cpu/processor_status.rs`. -/
def update_carry_flag (cpu : CPU) (condition : Prop) [Decidable condition] : CPU :=
  if condition then { cpu with status := cpu.status ||| CARRY_BIT }
  else { cpu with status := cpu.status &&& not8 CARRY_BIT }

/-- Rust `update_zero_flag` from `src/src/cpu/processor_status.rs`. -/
def update_zero_flag (cpu : CPU) (condition : Prop) [Decidable condition] : CPU :=
  if condition then { cpu with status := cpu.status ||| ZERO_BIT }
  else { cpu with status := cpu.status &&& not8 ZERO_BIT }

/-- Rust `update_interrupt_flag` from `src/src/cpu/processor_status.rs`. -/
def update_interrupt_flag (cpu : CPU) (condition : Prop) [Decidable condition] : CPU :=
  if condition then { cpu with status := cpu.status ||| INTERRUPT_DISABLE_BIT }
  else { cpu with status := cpu.status &&& not8 INTERRUPT_DISABLE_BIT }

/-- Rust `update_decimal_flag` from `src/src/cpu/processor_status.rs`. -/
def update_decimal_flag (cpu : CPU) (condition : Prop) [Decidable condition] : CPU :=
  if condition then { cpu with status := cpu.status ||| DECIMAL_BIT }
  else { cpu with status := cpu.status &&& not8 DECIMAL_BIT }

/-- Rust `update_overflow_flag` from `src/src/cpu/processor_status.rs`. -/
def update_overflow_flag (cpu : CPU) (condition : Prop) [Decidable condition] : CPU :=
  if condition then { cpu with status := cpu.status ||| OVERFLOW_BIT }
  else { cpu with status := cpu.status &&& not8 OVERFLOW_BIT }

/-- Rust `update_negative_flag` from `src/src/cpu/processor_status.rs`. -/
def update_negative_flag (cpu : CPU) (condition : Prop) [Decidable condition] : CPU :=
  if condition then { cpu with status := cpu.status ||| NEGATIVE_BIT }
  else { cpu with status := cpu.status &&& not8 NEGATIVE_BIT }

/-- Enum `AddressingMode` from `src/src/cpu/addressing_mode.rs`. -/
inductive AddressingMode where
  | Implicit
  | Accumulator
  | Immediate
  | ZeroPage
  | ZeroPageX
  | ZeroPageY
  | Relative
  | Absolute
  | AbsoluteX
  | AbsoluteY
  | Indirect
  | IndirectX
  | IndirectY

/-- Rust cast chain `byte as i8 as u16`: sign-extend an 8-bit value to
16 bits in two's complement. -/
def i8_as_u16 (v : Nat) : Nat :=
  if v % 256 < 128 then v % 256 else v % 256 + 0xFF00

/-- Rust `get_operand_address` from `src/src/cpu/addressing_mode.rs`.
The `Implicit` and `Accumulator` arms are `unreachable!` (panic → `none`). -/
def get_operand_address (cpu : CPU) (mode : AddressingMode) : Option Nat :=
  match mode with
  | .Implicit => none
  | .Accumulator => none
  | .Immediate => some cpu.program_counter
  | .ZeroPage => mem_read cpu cpu.program_counter
  | .ZeroPageX => do
      let pos ← mem_read cpu cpu.program_counter
      return (pos + cpu.register_x) % 256
  | .ZeroPageY => do
      let pos ← mem_read cpu cpu.program_counter
      return (pos + cpu.register_y) % 256
  | .Relative => do
      let addr ← mem_read cpu cpu.program_counter
      return (cpu.program_counter + i8_as_u16 addr) % 65536
  | .Absolute => mem_read_u16 cpu cpu.program_counter
  | .AbsoluteX => do
      let pos ← mem_read cpu cpu.program_counter
      return (pos + cpu.register_x) % 65536
  | .AbsoluteY => do
      let pos ← mem_read cpu cpu.program_counter
      return (pos + cpu.register_y) % 65536
  | .Indirect => do
      let ptr ← mem_read_u16 cpu cpu.program_counter
      mem_read_u16 cpu ptr
  | .IndirectX => do
      let base ← mem_read cpu cpu.program_counter
      let ptr := (base + cpu.register_x) % 256
      let lo ← mem_read cpu ptr
      let hi ← mem_read cpu ((ptr + 1) % 256)
      return (hi <<< 8) ||| lo
  | .IndirectY => do
      let base ← mem_read cpu cpu.program_counter
      let lo ← mem_read cpu base
      let hi ← mem_read cpu ((base + 1) % 256)
      let deref_base := (hi <<< 8) ||| lo
      return (deref_base + cpu.register_y) % 65536

/-- Rust `adc` from `src/src/cpu/instructions.rs` (lines 30-46).  The two
`wrapping_add`s, then the overflow, carry, zero and negative flag updates
in source order (the carry update reads `self.status & CARRY_BIT` after
the overflow update, and the overflow/negative conditions read the
already-updated accumulator, exactly as the Rust does). -/
def adc (cpu : CPU) (mode : AddressingMode) : Option CPU := do
  let addr ← get_operand_address cpu mode
  let value ← mem_read cpu addr
  let old_val := cpu.register_a
  let cpu := { cpu with
    register_a := ((cpu.register_a + value) % 256 + (cpu.status &&& CARRY_BIT)) % 256 }
  let cpu := update_overflow_flag cpu
    ((not8 (old_val ^^^ value) &&& (old_val ^^^ cpu.register_a)) &&& 0x80 ≠ 0)
  let cpu := update_carry_flag cpu
    (old_val + value + (cpu.status &&& CARRY_BIT) > 0xFF)
  let cpu := update_zero_flag cpu (cpu.register_a = 0)
  let cpu := update_negative_flag cpu (cpu.register_a &&& NEGATIVE_BIT = NEGATIVE_BIT)
  return cpu

/-- Rust `sbc` from `src/src/cpu/instructions.rs` (lines 535-547).  Note
that the overflow condition reads `self.register_a` after the line
`self.register_a = sum as u8`, so both xors there use the result. -/
def sbc (cpu : CPU) (mode : AddressingMode) : Option CPU := do
  let addr ← get_operand_address cpu mode
  let v ← mem_read cpu addr
  let value := v ^^^ 0xFF
  let sum := cpu.register_a + value + (cpu.status &&& CARRY_BIT)
  let cpu := { cpu with register_a := sum % 256 }
  let cpu := update_carry_flag cpu (sum > 0xFF)
  let cpu := update_overflow_flag cpu
    ((not8 (cpu.register_a ^^^ value) &&& (cpu.register_a ^^^ sum % 256)) &&& 0x80 ≠ 0)
  let cpu := update_zero_flag cpu (cpu.register_a = 0)
  let cpu := update_negative_flag cpu (cpu.register_a &&& NEGATIVE_BIT = NEGATIVE_BIT)
  return cpu

/-- Rust `wrapping_sub` on `u8`. -/
def wrapping_sub8 (a b : Nat) : Nat := (a + 256 - b % 256) % 256

/-- Rust `and` from `src/src/cpu/instructions.rs`: logical AND into A. -/
def and (cpu : CPU) (mode : AddressingMode) : Option CPU := do
  let addr ← get_operand_address cpu mode
  let value ← mem_read cpu addr
  let cpu := { cpu with register_a := cpu.register_a &&& value }
  let cpu := update_zero_flag cpu (cpu.register_a = 0)
  let cpu := update_negative_flag cpu (cpu.register_a &&& NEGATIVE_BIT = NEGATIVE_BIT)
  return cpu

/-- Rust `asl` from `src/src/cpu/instructions.rs`: arithmetic shift left on
A or on memory, carry from old bit 7. -/
def asl (cpu : CPU) (mode : AddressingMode) : Option CPU := do
  match mode with
  | .Accumulator =>
    let old_value := cpu.register_a
    let cpu := { cpu with register_a := (cpu.register_a <<< 1) % 256 }
    let cpu := update_zero_flag cpu (cpu.register_a = 0)
    let cpu := update_negative_flag cpu (cpu.register_a &&& NEGATIVE_BIT = NEGATIVE_BIT)
    return update_carry_flag cpu (old_value &&& NEGATIVE_BIT = NEGATIVE_BIT)
  | _ =>
    let addr ← get_operand_address cpu mode
    let old_value ← mem_read cpu addr
    let new_val := (old_value <<< 1) % 256
    let cpu ← mem_write cpu addr new_val
    let cpu := update_zero_flag cpu (new_val = 0)
    let cpu := update_negative_flag cpu (new_val &&& NEGATIVE_BIT = NEGATIVE_BIT)
    return update_carry_flag cpu (old_value &&& NEGATIVE_BIT = NEGATIVE_BIT)

/-- Rust `branch` from `src/src/cpu/instructions.rs` (lines 102-106): when
the condition holds, set PC to the Relative effective address. -/
def branch (cpu : CPU) (condition : Bool) (mode : AddressingMode) : Option CPU :=
  if condition then do
    let addr ← get_operand_address cpu mode
    return { cpu with program_counter := addr }
  else some cpu

/-- Rust `bit` from `src/src/cpu/instructions.rs`. -/
def bit (cpu : CPU) (mode : AddressingMode) : Option CPU := do
  let addr ← get_operand_address cpu mode
  let value ← mem_read cpu addr
  let cpu := update_zero_flag cpu (cpu.register_a &&& value = 0)
  let cpu := update_overflow_flag cpu (value &&& OVERFLOW_BIT = OVERFLOW_BIT)
  let cpu := update_negative_flag cpu (value &&& NEGATIVE_BIT = NEGATIVE_BIT)
  return cpu

/-- Rust `clear` from `src/src/cpu/instructions.rs`: CLC/CLD/CLI/CLV; the
other arms are `unreachable!` (panic → `none`). -/
def clear (cpu : CPU) (status : ProcessorStatus) : Option CPU :=
  match status with
  | .Carry => some (update_carry_flag cpu False)
  | .Zero => none
  | .InterruptDisable => some (update_interrupt_flag cpu False)
  | .Decimal => some (update_decimal_flag cpu False)
  | .BFlag => none
  | .Unused => none
  | .Overflow => some (update_overflow_flag cpu False)
  | .Negative => none

/-- Rust `cmp` from `src/src/cpu/instructions.rs`. -/
def cmp (cpu : CPU) (mode : AddressingMode) : Option CPU := do
  let addr ← get_operand_address cpu mode
  let value ← mem_read cpu addr
  let result := wrapping_sub8 cpu.register_a value
  let cpu := update_carry_flag cpu (cpu.register_a ≥ value)
  let cpu := update_zero_flag cpu (result = 0)
  let cpu := update_negative_flag cpu (result &&& NEGATIVE_BIT = NEGATIVE_BIT)
  return cpu

/-- Rust `cpx` from `src/src/cpu/instructions.rs`. -/
def cpx (cpu : CPU) (mode : AddressingMode) : Option CPU := do
  let addr ← get_operand_address cpu mode
  let value ← mem_read cpu addr
  let result := wrapping_sub8 cpu.register_x value
  let cpu := update_carry_flag cpu (cpu.register_x ≥ value)
  let cpu := update_zero_flag cpu (result = 0)
  let cpu := update_negative_flag cpu (result &&& NEGATIVE_BIT = NEGATIVE_BIT)
  return cpu

/-- Rust `cpy` from `src/src/cpu/instructions.rs`. -/
def cpy (cpu : CPU) (mode : AddressingMode) : Option CPU := do
  let addr ← get_operand_address cpu mode
  let value ← mem_read cpu addr
  let result := wrapping_sub8 cpu.register_y value
  let cpu := update_carry_flag cpu (cpu.register_y ≥ value)
  let cpu := update_zero_flag cpu (result = 0)
  let cpu := update_negative_flag cpu (result &&& NEGATIVE_BIT = NEGATIVE_BIT)
  return cpu

/-- Rust `dec` from `src/src/cpu/instructions.rs`. -/
def dec (cpu : CPU) (mode : AddressingMode) : Option CPU := do
  let addr ← get_operand_address cpu mode
  let value ← mem_read cpu addr
  let result := wrapping_sub8 value 1
  let cpu ← mem_write cpu addr result
  let cpu := update_zero_flag cpu (result = 0)
  let cpu := update_negative_flag cpu (result &&& NEGATIVE_BIT = NEGATIVE_BIT)
  return cpu

/-- Rust `dex` from `src/src/cpu/instructions.rs`. -/
def dex (cpu : CPU) : CPU :=
  let cpu := { cpu with register_x := wrapping_sub8 cpu.register_x 1 }
  let cpu := update_zero_flag cpu (cpu.register_x = 0)
  update_negative_flag cpu (cpu.register_x &&& NEGATIVE_BIT = NEGATIVE_BIT)

/-- Rust `dey` from `src/src/cpu/instructions.rs`. -/
def dey (cpu : CPU) : CPU :=
  let cpu := { cpu with register_y := wrapping_sub8 cpu.register_y 1 }
  let cpu := update_zero_flag cpu (cpu.register_y = 0)
  update_negative_flag cpu (cpu.register_y &&& NEGATIVE_BIT = NEGATIVE_BIT)

/-- Rust `eor` from `src/src/cpu/instructions.rs`. -/
def eor (cpu : CPU) (mode : AddressingMode) : Option CPU := do
  let addr ← get_operand_address cpu mode
  let value ← mem_read cpu addr
  let cpu := { cpu with register_a := cpu.register_a ^^^ value }
  let cpu := update_zero_flag cpu (cpu.register_a = 0)
  let cpu := update_negative_flag cpu (cpu.register_a &&& NEGATIVE_BIT = NEGATIVE_BIT)
  return cpu

/-- Rust `inc` from `src/src/cpu/instructions.rs`. -/
def inc (cpu : CPU) (mode : AddressingMode) : Option CPU := do
  let addr ← get_operand_address cpu mode
  let value ← mem_read cpu addr
  let result := (value + 1) % 256
  let cpu ← mem_write cpu addr result
  let cpu := update_zero_flag cpu (result = 0)
  let cpu := update_negative_flag cpu (result &&& NEGATIVE_BIT = NEGATIVE_BIT)
  return cpu

/-- Rust `inx` from `src/src/cpu/instructions.rs`. -/
def inx (cpu : CPU) : CPU :=
  let cpu := { cpu with register_x := (cpu.register_x + 1) % 256 }
  let cpu := update_zero_flag cpu (cpu.register_x = 0)
  update_negative_flag cpu (cpu.register_x &&& NEGATIVE_BIT = NEGATIVE_BIT)

/-- Rust `iny` from `src/src/cpu/instructions.rs`. -/
def iny (cpu : CPU) : CPU :=
  let cpu := { cpu with register_y := (cpu.register_y + 1) % 256 }
  let cpu := update_zero_flag cpu (cpu.register_y = 0)
  update_negative_flag cpu (cpu.register_y &&& NEGATIVE_BIT = NEGATIVE_BIT)

/-- Rust `jmp` from `src/src/cpu/instructions.rs`. -/
def jmp (cpu : CPU) (mode : AddressingMode) : Option CPU := do
  let addr ← get_operand_address cpu mode
  return { cpu with program_counter := addr }

/-- Rust `jsr` from `src/src/cpu/instructions.rs` (lines 296-316): push
`PC.wrapping_add(1)` high byte then low byte, then jump to the target. -/
def jsr (cpu : CPU) (mode : AddressingMode) : Option CPU := do
  let addr ← get_operand_address cpu mode
  let next_ins := (cpu.program_counter + 1) % 65536
  let msb_byte := (next_ins >>> 8) % 256
  let lsb_byte := next_ins &&& 0xFF
  let cpu ← mem_write cpu (STACK + cpu.stack_pointer) msb_byte
  let cpu := { cpu with stack_pointer := wrapping_sub8 cpu.stack_pointer 1 }
  let cpu ← mem_write cpu (STACK + cpu.stack_pointer) lsb_byte
  let cpu := { cpu with stack_pointer := wrapping_sub8 cpu.stack_pointer 1 }
  return { cpu with program_counter := addr }

/-- Rust `lda` from `src/src/cpu/instructions.rs`. -/
def lda (cpu : CPU) (mode : AddressingMode) : Option CPU := do
  let addr ← get_operand_address cpu mode
  let value ← mem_read cpu addr
  let cpu := { cpu with register_a := value }
  let cpu := update_zero_flag cpu (cpu.register_a = 0)
  let cpu := update_negative_flag cpu (cpu.register_a &&& NEGATIVE_BIT = NEGATIVE_BIT)
  return cpu

/-- Rust `ldx` from `src/src/cpu/instructions.rs`. -/
def ldx (cpu : CPU) (mode : AddressingMode) : Option CPU := do
  let addr ← get_operand_address cpu mode
  let value ← mem_read cpu addr
  let cpu := { cpu with register_x := value }
  let cpu := update_zero_flag cpu (cpu.register_x = 0)
  let cpu := update_negative_flag cpu (cpu.register_x &&& NEGATIVE_BIT = NEGATIVE_BIT)
  return cpu

/-- Rust `ldy` from `src/src/cpu/instructions.rs`. -/
def ldy (cpu : CPU) (mode : AddressingMode) : Option CPU := do
  let addr ← get_operand_address cpu mode
  let value ← mem_read cpu addr
  let cpu := { cpu with register_y := value }
  let cpu := update_zero_flag cpu (cpu.register_y = 0)
  let cpu := update_negative_flag cpu (cpu.register_y &&& NEGATIVE_BIT = NEGATIVE_BIT)
  return cpu

/-- Rust `lsr` from `src/src/cpu/instructions.rs`: logical shift right on A
or on memory, carry from old bit 0. -/
def lsr (cpu : CPU) (mode : AddressingMode) : Option CPU := do
  match mode with
  | .Accumulator =>
    let old_value := cpu.register_a
    let cpu := { cpu with register_a := cpu.register_a >>> 1 }
    let cpu := update_zero_flag cpu (cpu.register_a = 0)
    let cpu := update_negative_flag cpu (cpu.register_a &&& NEGATIVE_BIT = NEGATIVE_BIT)
    return update_carry_flag cpu (old_value &&& CARRY_BIT = CARRY_BIT)
  | _ =>
    let addr ← get_operand_address cpu mode
    let old_value ← mem_read cpu addr
    let new_val := old_value >>> 1
    let cpu ← mem_write cpu addr new_val
    let cpu := update_zero_flag cpu (new_val = 0)
    let cpu := update_negative_flag cpu (new_val &&& NEGATIVE_BIT = NEGATIVE_BIT)
    return update_carry_flag cpu (old_value &&& CARRY_BIT = CARRY_BIT)

/-- Rust `ora` from `src/src/cpu/instructions.rs`. -/
def ora (cpu : CPU) (mode : AddressingMode) : Option CPU := do
  let addr ← get_operand_address cpu mode
  let value ← mem_read cpu addr
  let cpu := { cpu with register_a := cpu.register_a ||| value }
  let cpu := update_zero_flag cpu (cpu.register_a = 0)
  let cpu := update_negative_flag cpu (cpu.register_a &&& NEGATIVE_BIT = NEGATIVE_BIT)
  return cpu

/-- Rust `pha` from `src/src/cpu/instructions.rs`. -/
def pha (cpu : CPU) : Option CPU := do
  let cpu ← mem_write cpu (STACK + cpu.stack_pointer) cpu.register_a
  return { cpu with stack_pointer := wrapping_sub8 cpu.stack_pointer 1 }

/-- Rust `php` from `src/src/cpu/instructions.rs` (lines 418-421): push the
status register byte as-is, then decrement SP. -/
def php (cpu : CPU) : Option CPU := do
  let cpu ← mem_write cpu (STACK + cpu.stack_pointer) cpu.status
  return { cpu with stack_pointer := wrapping_sub8 cpu.stack_pointer 1 }

/-- Rust `pla` from `src/src/cpu/instructions.rs`. -/
def pla (cpu : CPU) : Option CPU := do
  let cpu := { cpu with stack_pointer := (cpu.stack_pointer + 1) % 256 }
  let value ← mem_read cpu (STACK + cpu.stack_pointer)
  let cpu := { cpu with register_a := value }
  let cpu := update_zero_flag cpu (cpu.register_a = 0)
  let cpu := update_negative_flag cpu (cpu.register_a &&& NEGATIVE_BIT = NEGATIVE_BIT)
  return cpu

/-- Rust `plp` from `src/src/cpu/instructions.rs` (lines 438-441): increment
SP then load the status register from the stack byte, unmodified. -/
def plp (cpu : CPU) : Option CPU := do
  let cpu := { cpu with stack_pointer := (cpu.stack_pointer + 1) % 256 }
  let value ← mem_read cpu (STACK + cpu.stack_pointer)
  return { cpu with status := value }

/-- Rust `rol` from `src/src/cpu/instructions.rs`. -/
def rol (cpu : CPU) (mode : AddressingMode) : Option CPU := do
  match mode with
  | .Accumulator =>
    let old_value := cpu.register_a
    let cpu := { cpu with
      register_a := ((cpu.register_a <<< 1) % 256) ||| (cpu.status &&& CARRY_BIT) }
    let cpu := update_zero_flag cpu (cpu.register_a = 0)
    let cpu := update_negative_flag cpu (cpu.register_a &&& NEGATIVE_BIT = NEGATIVE_BIT)
    return update_carry_flag cpu (old_value &&& NEGATIVE_BIT = NEGATIVE_BIT)
  | _ =>
    let addr ← get_operand_address cpu mode
    let old_value ← mem_read cpu addr
    let new_val := ((old_value <<< 1) % 256) ||| (cpu.status &&& CARRY_BIT)
    let cpu ← mem_write cpu addr new_val
    let cpu := update_zero_flag cpu (new_val = 0)
    let cpu := update_negative_flag cpu (new_val &&& NEGATIVE_BIT = NEGATIVE_BIT)
    return update_carry_flag cpu (old_value &&& NEGATIVE_BIT = NEGATIVE_BIT)

/-- Rust `ror` from `src/src/cpu/instructions.rs`. -/
def ror (cpu : CPU) (mode : AddressingMode) : Option CPU := do
  match mode with
  | .Accumulator =>
    let old_value := cpu.register_a
    let cpu := { cpu with
      register_a := (cpu.register_a >>> 1) ||| ((cpu.status &&& CARRY_BIT) <<< 7) }
    let cpu := update_zero_flag cpu (cpu.register_a = 0)
    let cpu := update_negative_flag cpu (cpu.register_a &&& NEGATIVE_BIT = NEGATIVE_BIT)
    return update_carry_flag cpu (old_value &&& CARRY_BIT = CARRY_BIT)
  | _ =>
    let addr ← get_operand_address cpu mode
    let old_value ← mem_read cpu addr
    let new_val := (old_value >>> 1) ||| ((cpu.status &&& CARRY_BIT) <<< 7)
    let cpu ← mem_write cpu addr new_val
    let cpu := update_zero_flag cpu (new_val = 0)
    let cpu := update_negative_flag cpu (new_val &&& NEGATIVE_BIT = NEGATIVE_BIT)
    return update_carry_flag cpu (old_value &&& CARRY_BIT = CARRY_BIT)

/-- Rust `rti` from `src/src/cpu/instructions.rs`: pull P, then pull PC. -/
def rti (cpu : CPU) : Option CPU := do
  let cpu ← plp cpu
  let cpu := { cpu with stack_pointer := (cpu.stack_pointer + 1) % 256 }
  let lo ← mem_read cpu (STACK + cpu.stack_pointer)
  let cpu := { cpu with stack_pointer := (cpu.stack_pointer + 1) % 256 }
  let hi ← mem_read cpu (STACK + cpu.stack_pointer)
  return { cpu with program_counter := (hi <<< 8) ||| lo }

/-- Rust `rts` from `src/src/cpu/instructions.rs` (lines 516-524): pull PC
low then high, and set PC to the pulled word plus one. -/
def rts (cpu : CPU) : Option CPU := do
  let cpu := { cpu with stack_pointer := (cpu.stack_pointer + 1) % 256 }
  let lo ← mem_read cpu (STACK + cpu.stack_pointer)
  let cpu := { cpu with stack_pointer := (cpu.stack_pointer + 1) % 256 }
  let hi ← mem_read cpu (STACK + cpu.stack_pointer)
  return { cpu with program_counter := (((hi <<< 8) ||| lo) + 1) % 65536 }

/-- Rust `sec` from `src/src/cpu/instructions.rs`. -/
def sec (cpu : CPU) : CPU := update_carry_flag cpu True

/-- Rust `sed` from `src/src/cpu/instructions.rs`. -/
def sed (cpu : CPU) : CPU := update_decimal_flag cpu True

/-- Rust `sei` from `src/src/cpu/instructions.rs`. -/
def sei (cpu : CPU) : CPU := update_interrupt_flag cpu True

/-- Rust `sta` from `src/src/cpu/instructions.rs` (lines 576-580): store A. -/
def sta (cpu : CPU) (mode : AddressingMode) : Option CPU := do
  let addr ← get_operand_address cpu mode
  mem_write cpu addr cpu.register_a

/-- Rust `stx` from `src/src/cpu/instructions.rs`: store X. -/
def stx (cpu : CPU) (mode : AddressingMode) : Option CPU := do
  let addr ← get_operand_address cpu mode
  mem_write cpu addr cpu.register_x

/-- Rust `sty` from `src/src/cpu/instructions.rs`: store Y. -/
def sty (cpu : CPU) (mode : AddressingMode) : Option CPU := do
  let addr ← get_operand_address cpu mode
  mem_write cpu addr cpu.register_y

/-- Rust `tax` from `src/src/cpu/instructions.rs`. -/
def tax (cpu : CPU) : CPU :=
  let cpu := { cpu with register_x := cpu.register_a }
  let cpu := update_zero_flag cpu (cpu.register_x = 0)
  update_negative_flag cpu (cpu.register_x &&& NEGATIVE_BIT = NEGATIVE_BIT)

/-- Rust `tay` from `src/src/cpu/instructions.rs`. -/
def tay (cpu : CPU) : CPU :=
  let cpu := { cpu with register_y := cpu.register_a }
  let cpu := update_zero_flag cpu (cpu.register_y = 0)
  update_negative_flag cpu (cpu.register_y &&& NEGATIVE_BIT = NEGATIVE_BIT)

/-- Rust `tsx` from `src/src/cpu/instructions.rs`. -/
def tsx (cpu : CPU) : CPU :=
  let cpu := { cpu with register_x := cpu.stack_pointer }
  let cpu := update_zero_flag cpu (cpu.register_x = 0)
  update_negative_flag cpu (cpu.register_x &&& NEGATIVE_BIT = NEGATIVE_BIT)

/-- Rust `txa` from `src/src/cpu/instructions.rs`. -/
def txa (cpu : CPU) : CPU :=
  let cpu := { cpu with register_a := cpu.register_x }
  let cpu := update_zero_flag cpu (cpu.register_a = 0)
  update_negative_flag cpu (cpu.register_a &&& NEGATIVE_BIT = NEGATIVE_BIT)

/-- Rust `txs` from `src/src/cpu/instructions.rs`. -/
def txs (cpu : CPU) : CPU := { cpu with stack_pointer := cpu.register_x }

/-- Rust `tya` from `src/src/cpu/instructions.rs`. -/
def tya (cpu : CPU) : CPU :=
  let cpu := { cpu with register_a := cpu.register_y }
  let cpu := update_zero_flag cpu (cpu.register_a = 0)
  update_negative_flag cpu (cpu.register_a &&& NEGATIVE_BIT = NEGATIVE_BIT)

/-- Enum `OpCodeName` from `src/src/opcodes.rs`. -/
inductive OpCodeName where
  | ADC | AND | ASL | BCC | BCS | BEQ | BIT | BMI | BNE | BPL | BRK | BVC | BVS
  | CLC | CLD | CLI | CLV | CMP | CPX | CPY | DEC | DEX | DEY | EOR | INC | INX
  | INY | JMP | JSR | LDA | LDX | LDY | LSR | NOP | ORA | PHA | PHP | PLA | PLP
  | ROL | ROR | RTI | RTS | SBC | SEC | SED | SEI | STA | STX | STY | TAX | TAY
  | TSX | TXA | TXS | TYA

/-- Struct `OpCode` from `src/src/opcodes.rs`. -/
structure OpCode where
  code : Nat
  mnemonic : OpCodeName
  len : Nat
  cycles : Nat
  mode : AddressingMode

set_option maxRecDepth 4000 in
/-- Rust `OpCode::get` over the `CPU_OPS_CODES` map from `src/src/opcodes.rs`:
each of the 151 entries of the `phf_map!`, and `none` for any other byte. -/
def OpCode.get (code : Nat) : Option OpCode :=
  if code = 0x69 then some ⟨0x69, .ADC, 2, 2, .Immediate⟩ else
  if code = 0x65 then some ⟨0x65, .ADC, 2, 3, .ZeroPage⟩ else
  if code = 0x75 then some ⟨0x75, .ADC, 2, 4, .ZeroPageX⟩ else
  if code = 0x6D then some ⟨0x6D, .ADC, 3, 4, .Absolute⟩ else
  if code = 0x7D then some ⟨0x7D, .ADC, 3, 4, .AbsoluteX⟩ else
  if code = 0x79 then some ⟨0x79, .ADC, 3, 4, .AbsoluteY⟩ else
  if code = 0x61 then some ⟨0x61, .ADC, 2, 6, .IndirectX⟩ else
  if code = 0x71 then some ⟨0x71, .ADC, 2, 5, .IndirectY⟩ else
  if code = 0x29 then some ⟨0x29, .AND, 2, 2, .Immediate⟩ else
  if code = 0x25 then some ⟨0x25, .AND, 2, 3, .ZeroPage⟩ else
  if code = 0x35 then some ⟨0x35, .AND, 2, 4, .ZeroPageX⟩ else
  if code = 0x2D then some ⟨0x2D, .AND, 3, 4, .Absolute⟩ else
  if code = 0x3D then some ⟨0x3D, .AND, 3, 4, .AbsoluteX⟩ else
  if code = 0x39 then some ⟨0x39, .AND, 3, 4, .AbsoluteY⟩ else
  if code = 0x21 then some ⟨0x21, .AND, 2, 6, .IndirectX⟩ else
  if code = 0x31 then some ⟨0x31, .AND, 2, 5, .IndirectY⟩ else
  if code = 0x0A then some ⟨0x0A, .ASL, 1, 2, .Accumulator⟩ else
  if code = 0x06 then some ⟨0x06, .ASL, 2, 5, .ZeroPage⟩ else
  if code = 0x16 then some ⟨0x16, .ASL, 2, 6, .ZeroPageX⟩ else
  if code = 0x0E then some ⟨0x0E, .ASL, 3, 6, .Absolute⟩ else
  if code = 0x1E then some ⟨0x1E, .ASL, 3, 7, .AbsoluteX⟩ else
  if code = 0x90 then some ⟨0x90, .BCC, 2, 2, .Relative⟩ else
  if code = 0xB0 then some ⟨0xB0, .BCS, 2, 2, .Relative⟩ else
  if code = 0xF0 then some ⟨0xF0, .BEQ, 2, 2, .Relative⟩ else
  if code = 0x24 then some ⟨0x24, .BIT, 2, 3, .ZeroPage⟩ else
  if code = 0x2C then some ⟨0x2C, .BIT, 3, 4, .Absolute⟩ else
  if code = 0x30 then some ⟨0x30, .BMI, 2, 2, .Relative⟩ else
  if code = 0xD0 then some ⟨0xD0, .BNE, 2, 2, .Relative⟩ else
  if code = 0x10 then some ⟨0x10, .BPL, 2, 2, .Relative⟩ else
  if code = 0x00 then some ⟨0x00, .BRK, 1, 7, .Implicit⟩ else
  if code = 0x50 then some ⟨0x50, .BVC, 2, 2, .Relative⟩ else
  if code = 0x70 then some ⟨0x70, .BVS, 2, 2, .Relative⟩ else
  if code = 0x18 then some ⟨0x18, .CLC, 1, 2, .Implicit⟩ else
  if code = 0xD8 then some ⟨0xD8, .CLD, 1, 2, .Implicit⟩ else
  if code = 0x58 then some ⟨0x58, .CLI, 1, 2, .Implicit⟩ else
  if code = 0xB8 then some ⟨0xB8, .CLV, 1, 2, .Implicit⟩ else
  if code = 0xC9 then some ⟨0xC9, .CMP, 2, 2, .Immediate⟩ else
  if code = 0xC5 then some ⟨0xC5, .CMP, 2, 3, .ZeroPage⟩ else
  if code = 0xD5 then some ⟨0xD5, .CMP, 2, 4, .ZeroPageX⟩ else
  if code = 0xCD then some ⟨0xCD, .CMP, 3, 4, .Absolute⟩ else
  if code = 0xDD then some ⟨0xDD, .CMP, 3, 4, .AbsoluteX⟩ else
  if code = 0xD9 then some ⟨0xD9, .CMP, 3, 4, .AbsoluteY⟩ else
  if code = 0xC1 then some ⟨0xC1, .CMP, 2, 6, .IndirectX⟩ else
  if code = 0xD1 then some ⟨0xD1, .CMP, 2, 5, .IndirectY⟩ else
  if code = 0xE0 then some ⟨0xE0, .CPX, 2, 2, .Immediate⟩ else
  if code = 0xE4 then some ⟨0xE4, .CPX, 2, 3, .ZeroPage⟩ else
  if code = 0xEC then some ⟨0xEC, .CPX, 3, 4, .Absolute⟩ else
  if code = 0xC0 then some ⟨0xC0, .CPY, 2, 2, .Immediate⟩ else
  if code = 0xC4 then some ⟨0xC4, .CPY, 2, 3, .ZeroPage⟩ else
  if code = 0xCC then some ⟨0xCC, .CPY, 3, 4, .Absolute⟩ else
  if code = 0xC6 then some ⟨0xC6, .DEC, 2, 5, .ZeroPage⟩ else
  if code = 0xD6 then some ⟨0xD6, .DEC, 2, 6, .ZeroPageX⟩ else
  if code = 0xCE then some ⟨0xCE, .DEC, 3, 6, .Absolute⟩ else
  if code = 0xDE then some ⟨0xDE, .DEC, 3, 7, .AbsoluteX⟩ else
  if code = 0xCA then some ⟨0xCA, .DEX, 1, 2, .Implicit⟩ else
  if code = 0x88 then some ⟨0x88, .DEY, 1, 2, .Implicit⟩ else
  if code = 0x49 then some ⟨0x49, .EOR, 2, 2, .Immediate⟩ else
  if code = 0x45 then some ⟨0x45, .EOR, 2, 3, .ZeroPage⟩ else
  if code = 0x55 then some ⟨0x55, .EOR, 2, 4, .ZeroPageX⟩ else
  if code = 0x4D then some ⟨0x4D, .EOR, 3, 4, .Absolute⟩ else
  if code = 0x5D then some ⟨0x5D, .EOR, 3, 4, .AbsoluteX⟩ else
  if code = 0x59 then some ⟨0x59, .EOR, 3, 4, .AbsoluteY⟩ else
  if code = 0x41 then some ⟨0x41, .EOR, 2, 6, .IndirectX⟩ else
  if code = 0x51 then some ⟨0x51, .EOR, 2, 5, .IndirectY⟩ else
  if code = 0xE6 then some ⟨0xE6, .INC, 2, 5, .ZeroPage⟩ else
  if code = 0xF6 then some ⟨0xF6, .INC, 2, 6, .ZeroPageX⟩ else
  if code = 0xEE then some ⟨0xEE, .INC, 3, 6, .Absolute⟩ else
  if code = 0xFE then some ⟨0xFE, .INC, 3, 7, .AbsoluteX⟩ else
  if code = 0xE8 then some ⟨0xE8, .INX, 1, 2, .Implicit⟩ else
  if code = 0xC8 then some ⟨0xC8, .INY, 1, 2, .Implicit⟩ else
  if code = 0x4C then some ⟨0x4C, .JMP, 3, 3, .Absolute⟩ else
  if code = 0x6C then some ⟨0x6C, .JMP, 3, 5, .Indirect⟩ else
  if code = 0x20 then some ⟨0x20, .JSR, 3, 6, .Absolute⟩ else
  if code = 0xA9 then some ⟨0xA9, .LDA, 2, 2, .Immediate⟩ else
  if code = 0xA5 then some ⟨0xA5, .LDA, 2, 3, .ZeroPage⟩ else
  if code = 0xB5 then some ⟨0xB5, .LDA, 2, 4, .ZeroPageX⟩ else
  if code = 0xAD then some ⟨0xAD, .LDA, 3, 4, .Absolute⟩ else
  if code = 0xBD then some ⟨0xBD, .LDA, 3, 4, .AbsoluteX⟩ else
  if code = 0xB9 then some ⟨0xB9, .LDA, 3, 4, .AbsoluteY⟩ else
  if code = 0xA1 then some ⟨0xA1, .LDA, 2, 6, .IndirectX⟩ else
  if code = 0xB1 then some ⟨0xB1, .LDA, 2, 5, .IndirectY⟩ else
  if code = 0xA2 then some ⟨0xA2, .LDX, 2, 2, .Immediate⟩ else
  if code = 0xA6 then some ⟨0xA6, .LDX, 2, 3, .ZeroPage⟩ else
  if code = 0xB6 then some ⟨0xB6, .LDX, 2, 4, .ZeroPageY⟩ else
  if code = 0xAE then some ⟨0xAE, .LDX, 3, 4, .Absolute⟩ else
  if code = 0xBE then some ⟨0xBE, .LDX, 3, 4, .AbsoluteY⟩ else
  if code = 0xA0 then some ⟨0xA0, .LDY, 2, 2, .Immediate⟩ else
  if code = 0xA4 then some ⟨0xA4, .LDY, 2, 3, .ZeroPage⟩ else
  if code = 0xB4 then some ⟨0xB4, .LDY, 2, 4, .ZeroPageX⟩ else
  if code = 0xAC then some ⟨0xAC, .LDY, 3, 4, .Absolute⟩ else
  if code = 0xBC then some ⟨0xBC, .LDY, 3, 4, .AbsoluteX⟩ else
  if code = 0x4A then some ⟨0x4A, .LSR, 1, 2, .Accumulator⟩ else
  if code = 0x46 then some ⟨0x46, .LSR, 2, 5, .ZeroPage⟩ else
  if code = 0x56 then some ⟨0x56, .LSR, 2, 6, .ZeroPageX⟩ else
  if code = 0x4E then some ⟨0x4E, .LSR, 3, 6, .Absolute⟩ else
  if code = 0x5E then some ⟨0x5E, .LSR, 3, 7, .AbsoluteX⟩ else
  if code = 0xEA then some ⟨0xEA, .NOP, 1, 2, .Implicit⟩ else
  if code = 0x09 then some ⟨0x09, .ORA, 2, 2, .Immediate⟩ else
  if code = 0x05 then some ⟨0x05, .ORA, 2, 3, .ZeroPage⟩ else
  if code = 0x15 then some ⟨0x15, .ORA, 2, 4, .ZeroPageX⟩ else
  if code = 0x0D then some ⟨0x0D, .ORA, 3, 4, .Absolute⟩ else
  if code = 0x1D then some ⟨0x1D, .ORA, 3, 4, .AbsoluteX⟩ else
  if code = 0x19 then some ⟨0x19, .ORA, 3, 4, .AbsoluteY⟩ else
  if code = 0x01 then some ⟨0x01, .ORA, 2, 6, .IndirectX⟩ else
  if code = 0x11 then some ⟨0x11, .ORA, 2, 5, .IndirectY⟩ else
  if code = 0x48 then some ⟨0x48, .PHA, 1, 3, .Implicit⟩ else
  if code = 0x08 then some ⟨0x08, .PHP, 1, 3, .Implicit⟩ else
  if code = 0x68 then some ⟨0x68, .PLA, 1, 4, .Implicit⟩ else
  if code = 0x28 then some ⟨0x28, .PLP, 1, 4, .Implicit⟩ else
  if code = 0x2A then some ⟨0x2A, .ROL, 1, 2, .Accumulator⟩ else
  if code = 0x26 then some ⟨0x26, .ROL, 2, 5, .ZeroPage⟩ else
  if code = 0x36 then some ⟨0x36, .ROL, 2, 6, .ZeroPageX⟩ else
  if code = 0x2E then some ⟨0x2E, .ROL, 3, 6, .Absolute⟩ else
  if code = 0x3E then some ⟨0x3E, .ROL, 3, 7, .AbsoluteX⟩ else
  if code = 0x6A then some ⟨0x6A, .ROR, 1, 2, .Accumulator⟩ else
  if code = 0x66 then some ⟨0x66, .ROR, 2, 5, .ZeroPage⟩ else
  if code = 0x76 then some ⟨0x76, .ROR, 2, 6, .ZeroPageX⟩ else
  if code = 0x6E then some ⟨0x6E, .ROR, 3, 6, .Absolute⟩ else
  if code = 0x7E then some ⟨0x7E, .ROR, 3, 7, .AbsoluteX⟩ else
  if code = 0x40 then some ⟨0x40, .RTI, 1, 6, .Implicit⟩ else
  if code = 0x60 then some ⟨0x60, .RTS, 1, 6, .Implicit⟩ else
  if code = 0xE9 then some ⟨0xE9, .SBC, 2, 2, .Immediate⟩ else
  if code = 0xE5 then some ⟨0xE5, .SBC, 2, 3, .ZeroPage⟩ else
  if code = 0xF5 then some ⟨0xF5, .SBC, 2, 4, .ZeroPageX⟩ else
  if code = 0xED then some ⟨0xED, .SBC, 3, 4, .Absolute⟩ else
  if code = 0xFD then some ⟨0xFD, .SBC, 3, 4, .AbsoluteX⟩ else
  if code = 0xF9 then some ⟨0xF9, .SBC, 3, 4, .AbsoluteY⟩ else
  if code = 0xE1 then some ⟨0xE1, .SBC, 2, 6, .IndirectX⟩ else
  if code = 0xF1 then some ⟨0xF1, .SBC, 2, 5, .IndirectY⟩ else
  if code = 0x38 then some ⟨0x38, .SEC, 1, 2, .Implicit⟩ else
  if code = 0xF8 then some ⟨0xF8, .SED, 1, 2, .Implicit⟩ else
  if code = 0x78 then some ⟨0x78, .SEI, 1, 2, .Implicit⟩ else
  if code = 0x85 then some ⟨0x85, .STA, 2, 3, .ZeroPage⟩ else
  if code = 0x95 then some ⟨0x95, .STA, 2, 4, .ZeroPageX⟩ else
  if code = 0x8D then some ⟨0x8D, .STA, 3, 4, .Absolute⟩ else
  if code = 0x9D then some ⟨0x9D, .STA, 3, 5, .AbsoluteX⟩ else
  if code = 0x99 then some ⟨0x99, .STA, 3, 5, .AbsoluteY⟩ else
  if code = 0x81 then some ⟨0x81, .STA, 2, 6, .IndirectX⟩ else
  if code = 0x91 then some ⟨0x91, .STA, 2, 6, .IndirectY⟩ else
  if code = 0x86 then some ⟨0x86, .STX, 2, 3, .ZeroPage⟩ else
  if code = 0x96 then some ⟨0x96, .STX, 2, 4, .ZeroPageY⟩ else
  if code = 0x8E then some ⟨0x8E, .STX, 3, 4, .Absolute⟩ else
  if code = 0x84 then some ⟨0x84, .STY, 2, 3, .ZeroPage⟩ else
  if code = 0x94 then some ⟨0x94, .STY, 2, 4, .ZeroPageX⟩ else
  if code = 0x8C then some ⟨0x8C, .STY, 3, 4, .Absolute⟩ else
  if code = 0xAA then some ⟨0xAA, .TAX, 1, 2, .Implicit⟩ else
  if code = 0xA8 then some ⟨0xA8, .TAY, 1, 2, .Implicit⟩ else
  if code = 0xBA then some ⟨0xBA, .TSX, 1, 2, .Implicit⟩ else
  if code = 0x8A then some ⟨0x8A, .TXA, 1, 2, .Implicit⟩ else
  if code = 0x9A then some ⟨0x9A, .TXS, 1, 2, .Implicit⟩ else
  if code = 0x98 then some ⟨0x98, .TYA, 1, 2, .Implicit⟩ else
  none

/-- Result of one iteration of the `run` loop in `src/src/cpu/mod.rs`:
either the loop continues with a new state, returns at BRK, panics on an
illegal opcode (recording the offending byte and the PC at panic time), or
panics inside an instruction (array index out of bounds / `unreachable!`). -/
inductive Outcome where
  | next (cpu : CPU)
  | brk (cpu : CPU)
  | illegal (opcode pc : Nat)
  | crash

/-- Dispatch of one decoded instruction: the arms of the `match
opcode_struct.mnemonic` in `run` (`src/src/cpu/mod.rs`), for every mnemonic
except BRK, JMP and JSR (which `return`/`continue` and are handled in
`step` directly). -/
def execInstr (name : OpCodeName) (cpu : CPU) (mode : AddressingMode) : Option CPU :=
  match name with
  | .ADC => adc cpu mode
  | .AND => and cpu mode
  | .ASL => asl cpu mode
  | .BCC => do branch cpu (!(← is_status_flag_set cpu .Carry)) mode
  | .BCS => do branch cpu (← is_status_flag_set cpu .Carry) mode
  | .BEQ => do branch cpu (← is_status_flag_set cpu .Zero) mode
  | .BIT => bit cpu mode
  | .BMI => do branch cpu (← is_status_flag_set cpu .Negative) mode
  | .BNE => do branch cpu (!(← is_status_flag_set cpu .Zero)) mode
  | .BPL => do branch cpu (!(← is_status_flag_set cpu .Negative)) mode
  | .BRK => none
  | .BVC => do branch cpu (!(← is_status_flag_set cpu .Overflow)) mode
  | .BVS => do branch cpu (← is_status_flag_set cpu .Overflow) mode
  | .CLC => clear cpu .Carry
  | .CLD => clear cpu .Decimal
  | .CLI => clear cpu .InterruptDisable
  | .CLV => clear cpu .Overflow
  | .CMP => cmp cpu mode
  | .CPX => cpx cpu mode
  | .CPY => cpy cpu mode
  | .DEC => dec cpu mode
  | .DEX => some (dex cpu)
  | .DEY => some (dey cpu)
  | .EOR => eor cpu mode
  | .INC => inc cpu mode
  | .INX => some (inx cpu)
  | .INY => some (iny cpu)
  | .JMP => none
  | .JSR => none
  | .LDA => lda cpu mode
  | .LDX => ldx cpu mode
  | .LDY => ldy cpu mode
  | .LSR => lsr cpu mode
  | .NOP => some cpu
  | .ORA => ora cpu mode
  | .PHA => pha cpu
  | .PHP => php cpu
  | .PLA => pla cpu
  | .PLP => plp cpu
  | .ROL => rol cpu mode
  | .ROR => ror cpu mode
  | .RTI => rti cpu
  | .RTS => rts cpu
  | .SBC => sbc cpu mode
  | .SEC => some (sec cpu)
  | .SED => some (sed cpu)
  | .SEI => some (sei cpu)
  | .STA => sta cpu mode
  | .STX => stx cpu mode
  | .STY => sty cpu mode
  | .TAX => some (tax cpu)
  | .TAY => some (tay cpu)
  | .TSX => some (tsx cpu)
  | .TXA => some (txa cpu)
  | .TXS => some (txs cpu)
  | .TYA => some (tya cpu)

/-- One iteration of the `run` loop in `src/src/cpu/mod.rs`: fetch the
opcode byte, increment PC, look the byte up in the opcode table (panicking
with the byte and the current PC when absent), dispatch, and advance PC by
`len - 1` (except for BRK, which decrements PC and returns, and JMP/JSR,
which `continue`). -/
def step (cpu : CPU) : Outcome :=
  match mem_read cpu cpu.program_counter with
  | none => Outcome.crash
  | some opcode =>
    let cpu := { cpu with program_counter := (cpu.program_counter + 1) % 65536 }
    match OpCode.get opcode with
    | some opcode_struct =>
      match opcode_struct.mnemonic with
      | .BRK =>
          Outcome.brk { cpu with program_counter := (cpu.program_counter + 65535) % 65536 }
      | .JMP =>
          match jmp cpu opcode_struct.mode with
          | some cpu => Outcome.next cpu
          | none => Outcome.crash
      | .JSR =>
          match jsr cpu opcode_struct.mode with
          | some cpu => Outcome.next cpu
          | none => Outcome.crash
      | name =>
          match execInstr name cpu opcode_struct.mode with
          | some cpu => Outcome.next
              { cpu with program_counter := (cpu.program_counter + (opcode_struct.len - 1)) % 65536 }
          | none => Outcome.crash
    | none => Outcome.illegal opcode cpu.program_counter

/-- Final result of `run` (`src/src/cpu/mod.rs`), with explicit fuel to
make the loop total in the model. -/
inductive RunResult where
  | halted (cpu : CPU)
  | illegal (opcode pc : Nat)
  | crash
  | fuelOut

/-- The `run` loop of `src/src/cpu/mod.rs`, iterating `step` with fuel. -/
def runFuel : Nat → CPU → RunResult
  | 0, _ => RunResult.fuelOut
  | fuel + 1, cpu =>
    match step cpu with
    | Outcome.next cpu => runFuel fuel cpu
    | Outcome.brk cpu => RunResult.halted cpu
    | Outcome.illegal opcode pc => RunResult.illegal opcode pc
    | Outcome.crash => RunResult.crash

/-- Rust `CPU::new` from `src/src/cpu/mod.rs`. -/
def CPU.new : CPU :=
  { register_a := 0
    register_x := 0
    register_y := 0
    stack_pointer := STACK_RESET
    status := 0b100100
    program_counter := 0
    memory := fun _ => 0 }

/-- Sequential byte writes of `copy_from_slice` in `CPU::load`. -/
def setBytes (m : Nat → Nat) (base : Nat) : List Nat → (Nat → Nat)
  | [] => m
  | v :: vs => setBytes (fun a => if a = base then v else m a) (base + 1) vs

/-- Rust `CPU::load` from `src/src/cpu/mod.rs`: copy the program image to
`0x8000..`, then write `0x8000` to the reset vector at `0xFFFC`.  The
slice copy panics when the image runs past the end of memory. -/
def load (cpu : CPU) (program : List Nat) : Option CPU :=
  if 0x8000 + program.length ≤ MEMORY_LEN then
    mem_write_u16 { cpu with memory := setBytes cpu.memory 0x8000 program } 0xFFFC 0x8000
  else none

/-- Rust `CPU::reset` from `src/src/cpu/mod.rs`. -/
def reset (cpu : CPU) : Option CPU := do
  let cpu := { cpu with
    register_a := 0
    register_x := 0
    register_y := 0
    stack_pointer := STACK_RESET
    status := 0b100100 }
  let pc ← mem_read_u16 cpu 0xFFFC
  return { cpu with program_counter := pc }

/-! ### Helper lemmas about status-bit manipulation -/

lemma testBit_255_of_lt (k : Nat) (h : k < 8) : Nat.testBit 255 k = true := by
  interval_cases k <;> decide

lemma status_if_testBit (s mask : Nat) (p : Prop) [Decidable p] (k : Nat)
    (hk : k < 8) (hm : mask < 256) :
    (if p then s ||| mask else s &&& not8 mask).testBit k =
      if mask.testBit k then decide p else s.testBit k := by
  by_cases hp : p
  · have hd : decide p = true := decide_eq_true hp
    rw [if_pos hp, hd, Nat.testBit_lor]
    cases hmb : mask.testBit k <;> simp [hmb]
  · have hd : decide p = false := decide_eq_false hp
    rw [if_neg hp, hd, Nat.testBit_land, not8, Nat.mod_eq_of_lt hm,
      Nat.testBit_xor, testBit_255_of_lt k hk]
    cases hmb : mask.testBit k <;> simp [hmb]

lemma status_if_testBit_ne (s mask : Nat) (p : Prop) [Decidable p] (k : Nat)
    (hk : k < 8) (hm : mask < 256) (hb : mask.testBit k = false) :
    (if p then s ||| mask else s &&& not8 mask).testBit k = s.testBit k := by
  rw [status_if_testBit s mask p k hk hm, hb]; simp

lemma status_if_testBit_eq (s mask : Nat) (p : Prop) [Decidable p] (k : Nat)
    (hk : k < 8) (hm : mask < 256) (hb : mask.testBit k = true) :
    (if p then s ||| mask else s &&& not8 mask).testBit k = decide p := by
  rw [status_if_testBit s mask p k hk hm, hb]; simp

lemma update_carry_flag_status (cpu : CPU) (p : Prop) [Decidable p] :
    (update_carry_flag cpu p).status =
      if p then cpu.status ||| CARRY_BIT else cpu.status &&& not8 CARRY_BIT := by
  unfold update_carry_flag; split <;> rfl

lemma update_carry_flag_register_a (cpu : CPU) (p : Prop) [Decidable p] :
    (update_carry_flag cpu p).register_a = cpu.register_a := by
  unfold update_carry_flag; split <;> rfl

lemma update_zero_flag_status (cpu : CPU) (p : Prop) [Decidable p] :
    (update_zero_flag cpu p).status =
      if p then cpu.status ||| ZERO_BIT else cpu.status &&& not8 ZERO_BIT := by
  unfold update_zero_flag; split <;> rfl

lemma update_zero_flag_register_a (cpu : CPU) (p : Prop) [Decidable p] :
    (update_zero_flag cpu p).register_a = cpu.register_a := by
  unfold update_zero_flag; split <;> rfl

lemma update_overflow_flag_status (cpu : CPU) (p : Prop) [Decidable p] :
    (update_overflow_flag cpu p).status =
      if p then cpu.status ||| OVERFLOW_BIT else cpu.status &&& not8 OVERFLOW_BIT := by
  unfold update_overflow_flag; split <;> rfl

lemma update_overflow_flag_register_a (cpu : CPU) (p : Prop) [Decidable p] :
    (update_overflow_flag cpu p).register_a = cpu.register_a := by
  unfold update_overflow_flag; split <;> rfl

lemma update_negative_flag_status (cpu : CPU) (p : Prop) [Decidable p] :
    (update_negative_flag cpu p).status =
      if p then cpu.status ||| NEGATIVE_BIT else cpu.status &&& not8 NEGATIVE_BIT := by
  unfold update_negative_flag; split <;> rfl

lemma update_negative_flag_register_a (cpu : CPU) (p : Prop) [Decidable p] :
    (update_negative_flag cpu p).register_a = cpu.register_a := by
  unfold update_negative_flag; split <;> rfl

lemma pipeline_register_a (s0 : CPU) (pV pC pZ pN : Prop)
    [Decidable pV] [Decidable pC] [Decidable pZ] [Decidable pN] :
    (update_negative_flag (update_zero_flag (update_carry_flag
      (update_overflow_flag s0 pV) pC) pZ) pN).register_a = s0.register_a := by
  rw [update_negative_flag_register_a, update_zero_flag_register_a,
    update_carry_flag_register_a, update_overflow_flag_register_a]

lemma pipeline_testBit0 (s0 : CPU) (pV pC pZ pN : Prop)
    [Decidable pV] [Decidable pC] [Decidable pZ] [Decidable pN] :
    (update_negative_flag (update_zero_flag (update_carry_flag
      (update_overflow_flag s0 pV) pC) pZ) pN).status.testBit 0 = decide pC := by
  rw [update_negative_flag_status,
    status_if_testBit_ne _ _ _ 0 (by norm_num) (by decide) (by decide),
    update_zero_flag_status,
    status_if_testBit_ne _ _ _ 0 (by norm_num) (by decide) (by decide),
    update_carry_flag_status,
    status_if_testBit_eq _ _ _ 0 (by norm_num) (by decide) (by decide)]

lemma pipeline_testBit1 (s0 : CPU) (pV pC pZ pN : Prop)
    [Decidable pV] [Decidable pC] [Decidable pZ] [Decidable pN] :
    (update_negative_flag (update_zero_flag (update_carry_flag
      (update_overflow_flag s0 pV) pC) pZ) pN).status.testBit 1 = decide pZ := by
  rw [update_negative_flag_status,
    status_if_testBit_ne _ _ _ 1 (by norm_num) (by decide) (by decide),
    update_zero_flag_status,
    status_if_testBit_eq _ _ _ 1 (by norm_num) (by decide) (by decide)]

lemma pipeline_testBit6 (s0 : CPU) (pV pC pZ pN : Prop)
    [Decidable pV] [Decidable pC] [Decidable pZ] [Decidable pN] :
    (update_negative_flag (update_zero_flag (update_carry_flag
      (update_overflow_flag s0 pV) pC) pZ) pN).status.testBit 6 = decide pV := by
  rw [update_negative_flag_status,
    status_if_testBit_ne _ _ _ 6 (by norm_num) (by decide) (by decide),
    update_zero_flag_status,
    status_if_testBit_ne _ _ _ 6 (by norm_num) (by decide) (by decide),
    update_carry_flag_status,
    status_if_testBit_ne _ _ _ 6 (by norm_num) (by decide) (by decide),
    update_overflow_flag_status,
    status_if_testBit_eq _ _ _ 6 (by norm_num) (by decide) (by decide)]

lemma pipeline_testBit7 (s0 : CPU) (pV pC pZ pN : Prop)
    [Decidable pV] [Decidable pC] [Decidable pZ] [Decidable pN] :
    (update_negative_flag (update_zero_flag (update_carry_flag
      (update_overflow_flag s0 pV) pC) pZ) pN).status.testBit 7 = decide pN := by
  rw [update_negative_flag_status,
    status_if_testBit_eq _ _ _ 7 (by norm_num) (by decide) (by decide)]

lemma beq_land_two_pow (s k : Nat) : (s &&& 2 ^ k == 2 ^ k) = s.testBit k := by
  rw [Nat.and_two_pow]
  cases h : s.testBit k
  · simpa using (Nat.pos_pow_of_pos k (by norm_num)).ne
  · simp

lemma beq_land_mask (s k m : Nat) (hm : 2 ^ k = m) : (s &&& m == m) = s.testBit k := by
  subst hm; exact beq_land_two_pow s k

lemma land_128_eq_iff (r : Nat) : r &&& 128 = 128 ↔ r.testBit 7 = true := by
  have h := beq_land_mask r 7 128 (by norm_num)
  rw [← h]
  exact ⟨fun hh => by simp [hh], fun hh => by simpa using hh⟩

lemma land_one_eq_toNat (a : Nat) : a &&& 1 = (a.testBit 0).toNat := by
  have h := Nat.and_two_pow a 0
  rwa [pow_zero, mul_one] at h

lemma land_one_congr (a b : Nat) (h : a.testBit 0 = b.testBit 0) :
    a &&& 1 = b &&& 1 := by
  rw [land_one_eq_toNat, land_one_eq_toNat, h]

lemma update_overflow_land_carry (cpu : CPU) (p : Prop) [Decidable p] :
    (update_overflow_flag cpu p).status &&& CARRY_BIT = cpu.status &&& CARRY_BIT := by
  show (update_overflow_flag cpu p).status &&& 1 = cpu.status &&& 1
  apply land_one_congr
  rw [update_overflow_flag_status,
    status_if_testBit_ne _ _ _ 0 (by norm_num) (by decide) (by decide)]

/-! ### C10: `is_status_flag_set` panics on BFlag/Unused and reads the six
condition bits -/

/-- C10: for every CPU state, `is_status_flag_set` panics (`none`) on
`BFlag` and `Unused`, and for the six condition flags returns exactly the
corresponding bit of the status register P. -/
theorem is_status_flag_set_spec (cpu : CPU) :
    is_status_flag_set cpu ProcessorStatus.BFlag = none ∧
    is_status_flag_set cpu ProcessorStatus.Unused = none ∧
    is_status_flag_set cpu ProcessorStatus.Carry = some (cpu.status.testBit 0) ∧
    is_status_flag_set cpu ProcessorStatus.Zero = some (cpu.status.testBit 1) ∧
    is_status_flag_set cpu ProcessorStatus.InterruptDisable = some (cpu.status.testBit 2) ∧
    is_status_flag_set cpu ProcessorStatus.Decimal = some (cpu.status.testBit 3) ∧
    is_status_flag_set cpu ProcessorStatus.Overflow = some (cpu.status.testBit 6) ∧
    is_status_flag_set cpu ProcessorStatus.Negative = some (cpu.status.testBit 7) := by
  have h0 := beq_land_mask cpu.status 0 1 (by norm_num)
  have h1 := beq_land_mask cpu.status 1 2 (by norm_num)
  have h2 := beq_land_mask cpu.status 2 4 (by norm_num)
  have h3 := beq_land_mask cpu.status 3 8 (by norm_num)
  have h6 := beq_land_mask cpu.status 6 64 (by norm_num)
  have h7 := beq_land_mask cpu.status 7 128 (by norm_num)
  refine ⟨rfl, rfl, ?_, ?_, ?_, ?_, ?_, ?_⟩ <;>
    simp only [is_status_flag_set, CARRY_BIT, ZERO_BIT, INTERRUPT_DISABLE_BIT,
      DECIMAL_BIT, OVERFLOW_BIT, NEGATIVE_BIT, h0, h1, h2, h3, h6, h7]

/-! ### C3: the memory array is one byte short of the 16-bit address space -/

/-- C3: `mem_read`/`mem_write` go through the Rust array `[u8; 0xFFFF]`
(65,535 bytes, not 65,536): they are defined exactly for addresses below
0xFFFF, and both panic (return `none`) at address 0xFFFF itself. -/
theorem mem_bounds_off_by_one :
    (∀ cpu addr, (mem_read cpu addr).isSome = decide (addr < 0xFFFF)) ∧
    (∀ cpu addr data, (mem_write cpu addr data).isSome = decide (addr < 0xFFFF)) ∧
    mem_read CPU.new 0xFFFF = none ∧
    mem_write CPU.new 0xFFFF 0 = none ∧
    mem_read CPU.new 0xFFFE = some 0 := by
  refine ⟨fun cpu addr => ?_, fun cpu addr data => ?_, rfl, rfl, rfl⟩
  · unfold mem_read MEMORY_LEN
    split <;> simp_all
  · unfold mem_write MEMORY_LEN
    split <;> simp_all

/-! ### C2: AbsoluteX/AbsoluteY ignore the high operand byte -/

/-- State used to probe the AbsoluteX/AbsoluteY resolver: the two operand
bytes at PC are 0x00 (low) and 0x10 (high), and X = Y = 0. -/
def absProbeState : CPU :=
  { register_a := 0
    register_x := 0
    register_y := 0
    stack_pointer := 0xFD
    status := 0x24
    program_counter := 0x8000
    memory := fun a => if a = 0x8001 then 0x10 else 0 }

/-- C2 counterexample evidence: with the little-endian operand word 0x1000
at PC (low byte 0x00, high byte 0x10) and X = Y = 0, the resolver returns
0x0000 for AbsoluteX and AbsoluteY — it reads a single byte at PC and never
reads the high operand byte — although `mem_read_u16` at PC yields 0x1000
and the Absolute mode resolves to 0x1000. -/
theorem absolute_x_ignores_high_byte :
    get_operand_address absProbeState AddressingMode.AbsoluteX = some 0x0000 ∧
    get_operand_address absProbeState AddressingMode.AbsoluteY = some 0x0000 ∧
    mem_read_u16 absProbeState 0x8000 = some 0x1000 ∧
    get_operand_address absProbeState AddressingMode.Absolute = some 0x1000 :=
  ⟨rfl, rfl, rfl, rfl⟩

/-! ### C1: SBC is not ADC of the complemented operand — the V flag differs -/

/-- State used to probe ADC: carry clear (P = 0x24), A = 0x50, and the
Immediate operand byte at PC is 0x50 (the one's complement of 0xAF). -/
def adcProbeState : CPU :=
  { register_a := 0x50
    register_x := 0
    register_y := 0
    stack_pointer := 0xFD
    status := 0x24
    program_counter := 0x8000
    memory := fun _ => 0x50 }

/-- State used to probe SBC: identical to `adcProbeState` except that the
Immediate operand byte is 0xAF (so SBC complements it back to 0x50). -/
def sbcProbeState : CPU :=
  { adcProbeState with memory := fun _ => 0xAF }

/-- C1 counterexample evidence: from A = 0x50 with carry clear, ADC of the
complemented operand 0x50 = 0xAF XOR 0xFF yields A = 0xA0 with V set, while
SBC of 0xAF yields the same A, C, Z, N but V clear: `sbc` computes its
overflow condition from the already-updated accumulator, so it never sets
V.  The tuple below is (A, C, V, Z, N). -/
theorem sbc_overflow_uses_result :
    ((adc adcProbeState AddressingMode.Immediate).map
        (fun c => (c.register_a, c.status.testBit 0, c.status.testBit 6,
                   c.status.testBit 1, c.status.testBit 7)) =
      some (0xA0, false, true, false, true)) ∧
    ((sbc sbcProbeState AddressingMode.Immediate).map
        (fun c => (c.register_a, c.status.testBit 0, c.status.testBit 6,
                   c.status.testBit 1, c.status.testBit 7)) =
      some (0xA0, false, false, false, true)) :=
  ⟨rfl, rfl⟩

/-! ### C4: ADC arithmetic and flag semantics -/

/-- C4: for every pre-operation accumulator A, operand byte M and carry-in
Cin = P AND 1, `adc` leaves the accumulator equal to (A + M + Cin) mod 256,
sets C iff the 9-bit sum exceeds 255, sets V iff
((NOT(A XOR M)) AND (A XOR R)) AND 0x80 is nonzero for the result R, sets
Z iff the result is zero, and sets N to bit 7 of the result. -/
theorem adc_spec (cpu : CPU) (mode : AddressingMode) (addr M : Nat)
    (hA : cpu.register_a < 256) (hM : M < 256)
    (haddr : get_operand_address cpu mode = some addr)
    (hval : mem_read cpu addr = some M) :
    ∃ cpu2, adc cpu mode = some cpu2 ∧
      cpu2.register_a = (cpu.register_a + M + (cpu.status &&& CARRY_BIT)) % 256 ∧
      (cpu2.status.testBit 0 = true ↔
        cpu.register_a + M + (cpu.status &&& CARRY_BIT) > 255) ∧
      (cpu2.status.testBit 6 = true ↔
        (not8 (cpu.register_a ^^^ M) &&& (cpu.register_a ^^^ cpu2.register_a)) &&& 128 ≠ 0) ∧
      (cpu2.status.testBit 1 = true ↔ cpu2.register_a = 0) ∧
      cpu2.status.testBit 7 = cpu2.register_a.testBit 7 := by
  simp only [adc, haddr, hval, Option.bind_eq_bind, Option.some_bind]
  refine ⟨_, rfl, ?_, ?_, ?_, ?_, ?_⟩
  · simp only [pipeline_register_a]
    omega
  · simp only [pipeline_testBit0, decide_eq_true_iff, update_overflow_land_carry]
  · simp only [pipeline_testBit6, decide_eq_true_iff, pipeline_register_a]
  · simp only [pipeline_testBit1, decide_eq_true_iff, update_carry_flag_register_a,
      update_overflow_flag_register_a, pipeline_register_a]
  · simp only [pipeline_testBit7, update_zero_flag_register_a, update_carry_flag_register_a,
      update_overflow_flag_register_a, pipeline_register_a, NEGATIVE_BIT]
    rw [Bool.eq_iff_iff, decide_eq_true_iff]
    exact land_128_eq_iff _

/-- Witness for `adc_spec`: A = 0x50, Immediate operand 0x10 at PC = 0x8000
with carry clear; the accumulator becomes 0x60 = (0x50 + 0x10 + 0) mod 256. -/
theorem adc_spec_witness :
    ∃ cpu2,
      adc { register_a := 0x50, register_x := 0, register_y := 0, stack_pointer := 0xFD,
            status := 0x24, program_counter := 0x8000,
            memory := fun _ => 0x10 } AddressingMode.Immediate = some cpu2 ∧
      cpu2.register_a = (0x50 + 0x10 + (0x24 &&& CARRY_BIT)) % 256 ∧
      (cpu2.status.testBit 0 = true ↔ 0x50 + 0x10 + (0x24 &&& CARRY_BIT) > 255) ∧
      (cpu2.status.testBit 6 = true ↔
        (not8 (0x50 ^^^ 0x10) &&& (0x50 ^^^ cpu2.register_a)) &&& 128 ≠ 0) ∧
      (cpu2.status.testBit 1 = true ↔ cpu2.register_a = 0) ∧
      cpu2.status.testBit 7 = cpu2.register_a.testBit 7 :=
  adc_spec _ AddressingMode.Immediate 0x8000 0x10 (by norm_num) (by norm_num) rfl rfl

/-! ### C5: PHP pushes the status byte unchanged (bit 5 is not forced) -/

/-- Memory contents after loading the program [0x28, 0x08, 0x28, 0x00]
(PLP; PHP; PLP; BRK) at 0x8000 and writing the reset vector. -/
def cxMem0 : Nat → Nat := fun a =>
  if a = 0xFFFD then 0x80 else
  if a = 0xFFFC then 0x00 else
  if a = 0x8003 then 0x00 else
  if a = 0x8002 then 0x28 else
  if a = 0x8001 then 0x08 else
  if a = 0x8000 then 0x28 else 0

/-- The state reached by `load`+ `reset` on the PLP; PHP; PLP; BRK program. -/
def cxState0 : CPU :=
  { register_a := 0, register_x := 0, register_y := 0,
    stack_pointer := 0xFD, status := 0x24, program_counter := 0x8000,
    memory := cxMem0 }

/-- State after the first PLP: P was loaded from the byte 0 at 0x01FE. -/
def cxState1 : CPU :=
  { register_a := 0, register_x := 0, register_y := 0,
    stack_pointer := 0xFE, status := 0, program_counter := 0x8001,
    memory := cxMem0 }

/-- Memory after PHP pushed the status byte 0 at 0x01FE. -/
def cxMem1 : Nat → Nat := fun a => if a = 0x1FE then 0 else cxMem0 a

/-- State after PHP: the pushed byte at 0x01FE is 0 — bit 5 was not forced. -/
def cxState2 : CPU :=
  { register_a := 0, register_x := 0, register_y := 0,
    stack_pointer := 0xFD, status := 0, program_counter := 0x8002,
    memory := cxMem1 }

/-- State after the second PLP, completing the PHP/PLP round trip. -/
def cxState3 : CPU :=
  { register_a := 0, register_x := 0, register_y := 0,
    stack_pointer := 0xFE, status := 0, program_counter := 0x8003,
    memory := cxMem1 }

/-- C5 counterexample: a complete execution trace of the program
PLP; PHP; PLP; BRK through `load`, `reset` and the `run` step.  The state
before the PHP is reachable (the driver itself produced it), PHP stores the
byte 0 — whose bit 5 is 0, not 1 — and after the PHP-then-PLP round trip
bit 5 of P is clear. -/
theorem php_bit5_counterexample :
    (load CPU.new [0x28, 0x08, 0x28, 0x00]).bind reset = some cxState0 ∧
    step cxState0 = Outcome.next cxState1 ∧
    step cxState1 = Outcome.next cxState2 ∧
    step cxState2 = Outcome.next cxState3 ∧
    step cxState3 = Outcome.brk cxState3 ∧
    cxState2.memory 0x1FE = 0 ∧
    (cxState2.memory 0x1FE).testBit 5 = false ∧
    cxState3.status.testBit 5 = false :=
  ⟨rfl, rfl, rfl, rfl, rfl, rfl, rfl, rfl⟩

lemma php_eq (cpu : CPU) (h : STACK + cpu.stack_pointer < MEMORY_LEN) :
    php cpu = some { cpu with
      memory := fun a => if a = STACK + cpu.stack_pointer then cpu.status else cpu.memory a,
      stack_pointer := wrapping_sub8 cpu.stack_pointer 1 } := by
  unfold php mem_write
  rw [if_pos h]
  rfl

lemma plp_eq (cpu : CPU) (h : STACK + (cpu.stack_pointer + 1) % 256 < MEMORY_LEN) :
    plp cpu = some { cpu with
      stack_pointer := (cpu.stack_pointer + 1) % 256,
      status := cpu.memory (STACK + (cpu.stack_pointer + 1) % 256) } := by
  unfold plp mem_read
  dsimp only
  rw [if_pos h]
  rfl

/-- C5 amended: for every CPU state (with SP a byte), PHP stores the status
byte P unchanged — bit 5 of the pushed byte equals bit 5 of P, it is not
forced to 1 — and the PHP-then-PLP round trip restores P exactly, so bit 5
is set afterwards iff it was set before. -/
theorem php_plp_roundtrip (cpu : CPU) (hsp : cpu.stack_pointer < 256) :
    ∃ cpu1 cpu2, php cpu = some cpu1 ∧ plp cpu1 = some cpu2 ∧
      cpu1.memory (STACK + cpu.stack_pointer) = cpu.status ∧
      cpu2.status = cpu.status ∧
      cpu2.stack_pointer = cpu.stack_pointer ∧
      cpu2.status.testBit 5 = cpu.status.testBit 5 := by
  have h1 : STACK + cpu.stack_pointer < MEMORY_LEN := by
    unfold STACK MEMORY_LEN; omega
  have hw : (wrapping_sub8 cpu.stack_pointer 1 + 1) % 256 = cpu.stack_pointer := by
    unfold wrapping_sub8; omega
  have h2 : STACK + (wrapping_sub8 cpu.stack_pointer 1 + 1) % 256 < MEMORY_LEN := by
    rw [hw]; exact h1
  refine ⟨_, _, php_eq cpu h1, plp_eq _ h2, ?_, ?_, ?_, ?_⟩
  · simp
  · simp [hw]
  · simp [hw]
  · simp [hw]

/-- Witness for `php_plp_roundtrip` at the freshly constructed CPU. -/
theorem php_plp_roundtrip_witness :
    ∃ cpu1 cpu2, php CPU.new = some cpu1 ∧ plp cpu1 = some cpu2 ∧
      cpu1.memory (STACK + CPU.new.stack_pointer) = CPU.new.status ∧
      cpu2.status = CPU.new.status ∧
      cpu2.stack_pointer = CPU.new.stack_pointer ∧
      cpu2.status.testBit 5 = CPU.new.status.testBit 5 :=
  php_plp_roundtrip CPU.new (by norm_num [CPU.new, STACK_RESET])

/-! ### C6: branch law -/

/-- The branch condition the driver computes for each branch opcode byte:
the `match` arms for BCC/BCS/BEQ/BMI/BNE/BPL/BVC/BVS in `run`
(`src/src/cpu/mod.rs`), each `none` exactly when `is_status_flag_set`
would panic (it never does for these six flags). -/
def branchCond (opcode : Nat) (cpu : CPU) : Option Bool :=
  match opcode with
  | 0x90 => (is_status_flag_set cpu ProcessorStatus.Carry).map (fun f => !f)
  | 0xB0 => is_status_flag_set cpu ProcessorStatus.Carry
  | 0xF0 => is_status_flag_set cpu ProcessorStatus.Zero
  | 0x30 => is_status_flag_set cpu ProcessorStatus.Negative
  | 0xD0 => (is_status_flag_set cpu ProcessorStatus.Zero).map (fun f => !f)
  | 0x10 => (is_status_flag_set cpu ProcessorStatus.Negative).map (fun f => !f)
  | 0x50 => (is_status_flag_set cpu ProcessorStatus.Overflow).map (fun f => !f)
  | 0x70 => is_status_flag_set cpu ProcessorStatus.Overflow
  | _ => none

/-- C6: for every branch opcode byte b (BCC, BCS, BEQ, BMI, BNE, BPL, BVC,
BVS) and every offset byte, after the driver completes the step the program
counter equals PC_after_operand = PC_opcode + 2 when the branch condition
is false, and PC_after_operand plus the sign-extended offset (wrapping
modulo 65,536) when it is true. -/
theorem branch_step_spec (cpu : CPU) (b off : Nat) (cond : Bool)
    (hb : b ∈ [0x90, 0xB0, 0xF0, 0x30, 0xD0, 0x10, 0x50, 0x70])
    (hfetch : mem_read cpu cpu.program_counter = some b)
    (hcond : branchCond b cpu = some cond)
    (hoff : mem_read cpu ((cpu.program_counter + 1) % 65536) = some off) :
    ∃ cpu2, step cpu = Outcome.next cpu2 ∧
      cpu2.program_counter =
        if cond then (cpu.program_counter + 2 + i8_as_u16 off) % 65536
        else (cpu.program_counter + 2) % 65536 := by
  obtain ⟨h1, h2⟩ : (cpu.program_counter + 1) % 65536 < MEMORY_LEN ∧
      cpu.memory ((cpu.program_counter + 1) % 65536) = off := by
    unfold mem_read at hoff
    split at hoff
    · exact ⟨by assumption, Option.some.inj hoff⟩
    · exact absurd hoff (by simp)
  have hg90 : OpCode.get 0x90 = some ⟨0x90, OpCodeName.BCC, 2, 2, AddressingMode.Relative⟩ := rfl
  have hgB0 : OpCode.get 0xB0 = some ⟨0xB0, OpCodeName.BCS, 2, 2, AddressingMode.Relative⟩ := rfl
  have hgF0 : OpCode.get 0xF0 = some ⟨0xF0, OpCodeName.BEQ, 2, 2, AddressingMode.Relative⟩ := rfl
  have hg30 : OpCode.get 0x30 = some ⟨0x30, OpCodeName.BMI, 2, 2, AddressingMode.Relative⟩ := rfl
  have hgD0 : OpCode.get 0xD0 = some ⟨0xD0, OpCodeName.BNE, 2, 2, AddressingMode.Relative⟩ := rfl
  have hg10 : OpCode.get 0x10 = some ⟨0x10, OpCodeName.BPL, 2, 2, AddressingMode.Relative⟩ := rfl
  have hg50 : OpCode.get 0x50 = some ⟨0x50, OpCodeName.BVC, 2, 2, AddressingMode.Relative⟩ := rfl
  have hg70 : OpCode.get 0x70 = some ⟨0x70, OpCodeName.BVS, 2, 2, AddressingMode.Relative⟩ := rfl
  fin_cases hb
  all_goals
    simp only [branchCond, is_status_flag_set, Option.map] at hcond
    rw [Option.some.injEq] at hcond
    simp only [step, hfetch, hg90, hgB0, hgF0, hg30, hgD0, hg10, hg50, hg70,
      execInstr, is_status_flag_set, Option.bind_eq_bind, Option.some_bind]
    unfold branch
    rw [hcond]
    cases cond
    · simp only [Bool.false_eq_true, if_false, Option.some_bind]
      refine ⟨_, rfl, ?_⟩
      simp only []
      omega
    · simp only [if_true]
      simp only [get_operand_address, mem_read]
      simp only [if_pos h1, h2, Option.bind_eq_bind, Option.some_bind]
      refine ⟨_, rfl, ?_⟩
      simp only [if_true]
      omega

/-- State used to witness the branch law: a BCC with offset 0x50 at
PC = 0x8000, carry clear, so the branch is taken. -/
def branchProbeState : CPU :=
  { register_a := 0, register_x := 0, register_y := 0,
    stack_pointer := 0xFD, status := 0x24, program_counter := 0x8000,
    memory := fun a => if a = 0x8001 then 0x50 else if a = 0x8000 then 0x90 else 0 }

/-- Witness for `branch_step_spec`: the taken BCC lands at
0x8000 + 2 + 0x50 = 0x8052. -/
theorem branch_step_spec_witness :
    ∃ cpu2, step branchProbeState = Outcome.next cpu2 ∧
      cpu2.program_counter =
        if true then (branchProbeState.program_counter + 2 + i8_as_u16 0x50) % 65536
        else (branchProbeState.program_counter + 2) % 65536 :=
  branch_step_spec branchProbeState 0x90 0x50 true (by norm_num) rfl rfl rfl

/-! ### C7: JSR/RTS return law -/

lemma word_recombine (n : Nat) (h : n < 65536) :
    (((n >>> 8) % 256) <<< 8) ||| (n &&& 0xFF) = n := by
  have hdiv : n >>> 8 = n / 256 := by
    rw [Nat.shiftRight_eq_div_pow]
  have hmod : n &&& 0xFF = n % 256 := by
    have h2 := Nat.and_pow_two_sub_one_eq_mod n 8
    norm_num at h2
    exact h2
  have hlt : n / 256 < 256 := by omega
  have hor := @Nat.mul_add_lt_is_or 8 (n % 256) (by omega) (n / 256)
  norm_num at hor
  rw [hdiv, Nat.mod_eq_of_lt hlt, Nat.shiftLeft_eq, hmod]
  norm_num
  rw [Nat.mul_comm, ← hor]
  exact Nat.div_add_mod n 256

/-- C7: executing JSR (opcode 0x20, Absolute target read little-endian at
PC+1/PC+2) and later executing RTS from any state whose stack pointer and
two pushed stack slots are undisturbed brings PC to the address of the JSR
opcode plus 3 and restores the stack pointer to its value before the JSR.
The JSR step itself jumps to the target word. -/
theorem jsr_rts_returns (s s1 t : CPU) (lo hi : Nat)
    (hsp : s.stack_pointer < 256)
    (hfetch : mem_read s s.program_counter = some 0x20)
    (hlo : mem_read s ((s.program_counter + 1) % 65536) = some lo)
    (hhi : mem_read s ((s.program_counter + 2) % 65536) = some hi)
    (hstep : step s = Outcome.next s1)
    (htsp : t.stack_pointer = s1.stack_pointer)
    (hthi : t.memory (STACK + s.stack_pointer) = s1.memory (STACK + s.stack_pointer))
    (htlo : t.memory (STACK + (s.stack_pointer + 255) % 256) =
            s1.memory (STACK + (s.stack_pointer + 255) % 256))
    (hfetch2 : mem_read t t.program_counter = some 0x60) :
    ∃ s2, step t = Outcome.next s2 ∧
      s2.program_counter = (s.program_counter + 3) % 65536 ∧
      s2.stack_pointer = s.stack_pointer := by
  obtain ⟨hb1, hm1⟩ : (s.program_counter + 1) % 65536 < MEMORY_LEN ∧
      s.memory ((s.program_counter + 1) % 65536) = lo := by
    unfold mem_read at hlo; split at hlo
    · exact ⟨by assumption, Option.some.inj hlo⟩
    · exact absurd hlo (by simp)
  obtain ⟨hb2, hm2⟩ : (s.program_counter + 2) % 65536 < MEMORY_LEN ∧
      s.memory ((s.program_counter + 2) % 65536) = hi := by
    unfold mem_read at hhi; split at hhi
    · exact ⟨by assumption, Option.some.inj hhi⟩
    · exact absurd hhi (by simp)
  have e12 : ((s.program_counter + 1) % 65536 + 1) % 65536 = (s.program_counter + 2) % 65536 := by
    omega
  have hw1 : STACK + s.stack_pointer < MEMORY_LEN := by
    unfold STACK MEMORY_LEN; omega
  have hw2 : STACK + wrapping_sub8 s.stack_pointer 1 < MEMORY_LEN := by
    unfold wrapping_sub8 STACK MEMORY_LEN; omega
  have hj : jsr { s with program_counter := (s.program_counter + 1) % 65536 }
      AddressingMode.Absolute = some
      { s with
        program_counter := (hi <<< 8) ||| lo,
        stack_pointer := wrapping_sub8 (wrapping_sub8 s.stack_pointer 1) 1,
        memory := fun a =>
          if a = STACK + wrapping_sub8 s.stack_pointer 1
          then (s.program_counter + 2) % 65536 &&& 0xFF
          else if a = STACK + s.stack_pointer
          then (((s.program_counter + 2) % 65536) >>> 8) % 256
          else s.memory a } := by
    unfold jsr get_operand_address mem_read_u16 mem_read mem_write
    dsimp only
    simp only [e12, if_pos hb1, if_pos hb2, hm1, hm2, Option.bind_eq_bind, Option.some_bind,
      if_pos hw1, if_pos hw2]
    rfl
  have hg20 : OpCode.get 0x20 = some ⟨0x20, OpCodeName.JSR, 3, 6, AddressingMode.Absolute⟩ := rfl
  simp only [step, hfetch, hg20, hj] at hstep
  have hs1 : { s with
        program_counter := (hi <<< 8) ||| lo,
        stack_pointer := wrapping_sub8 (wrapping_sub8 s.stack_pointer 1) 1,
        memory := fun a =>
          if a = STACK + wrapping_sub8 s.stack_pointer 1
          then (s.program_counter + 2) % 65536 &&& 0xFF
          else if a = STACK + s.stack_pointer
          then (((s.program_counter + 2) % 65536) >>> 8) % 256
          else s.memory a } = s1 := Outcome.next.inj hstep
  subst hs1
  have hsp1 : (t.stack_pointer + 1) % 256 = (s.stack_pointer + 255) % 256 := by
    rw [htsp]; dsimp only; unfold wrapping_sub8; omega
  have hsp2 : ((t.stack_pointer + 1) % 256 + 1) % 256 = s.stack_pointer := by
    rw [htsp]; dsimp only; unfold wrapping_sub8; omega
  have heq1 : STACK + (s.stack_pointer + 255) % 256 = STACK + wrapping_sub8 s.stack_pointer 1 := by
    unfold wrapping_sub8 STACK; omega
  have hne1 : ¬(STACK + s.stack_pointer = STACK + wrapping_sub8 s.stack_pointer 1) := by
    unfold wrapping_sub8 STACK; omega
  have hv1 : t.memory (STACK + (t.stack_pointer + 1) % 256) =
      (s.program_counter + 2) % 65536 &&& 0xFF := by
    rw [hsp1, htlo]
    dsimp only
    rw [if_pos heq1]
  have hv2 : t.memory (STACK + ((t.stack_pointer + 1) % 256 + 1) % 256) =
      (((s.program_counter + 2) % 65536) >>> 8) % 256 := by
    rw [hsp2, hthi]
    dsimp only
    rw [if_neg hne1, if_pos rfl]
  have hrb1 : STACK + (t.stack_pointer + 1) % 256 < MEMORY_LEN := by
    unfold STACK MEMORY_LEN; omega
  have hrb2 : STACK + ((t.stack_pointer + 1) % 256 + 1) % 256 < MEMORY_LEN := by
    unfold STACK MEMORY_LEN; omega
  have hg60 : OpCode.get 0x60 = some ⟨0x60, OpCodeName.RTS, 1, 6, AddressingMode.Implicit⟩ := rfl
  simp only [step, hfetch2, hg60, execInstr]
  unfold rts mem_read
  dsimp only
  simp only [if_pos hrb1, if_pos hrb2, hv1, hv2, Option.bind_eq_bind, Option.some_bind]
  refine ⟨_, rfl, ?_, ?_⟩
  · dsimp only
    rw [word_recombine ((s.program_counter + 2) % 65536) (by omega)]
    omega
  · dsimp only
    exact hsp2

/-- State used to witness the JSR/RTS law: JSR $2021 at 0x8000, with the
RTS opcode at the subroutine target 0x2021 (the setup of `test_rts_1`). -/
def jsrProbeState : CPU :=
  { register_a := 0, register_x := 0, register_y := 0,
    stack_pointer := 0xFD, status := 0x24, program_counter := 0x8000,
    memory := fun a =>
      if a = 0x2021 then 0x60 else
      if a = 0x8002 then 0x20 else
      if a = 0x8001 then 0x21 else
      if a = 0x8000 then 0x20 else 0 }

/-- The state after the JSR step from `jsrProbeState`: PC at the target,
return address 0x8002 pushed as 0x80 at 0x01FD and 0x02 at 0x01FC. -/
def jsrProbeState1 : CPU :=
  { register_a := 0, register_x := 0, register_y := 0,
    stack_pointer := 0xFB, status := 0x24, program_counter := 0x2021,
    memory := fun a =>
      if a = 0x1FC then 0x02 else
      if a = 0x1FD then 0x80 else jsrProbeState.memory a }

/-- Witness for `jsr_rts_returns`: after JSR $2021 and the immediate RTS,
PC is 0x8003 and SP is back at 0xFD. -/
theorem jsr_rts_returns_witness :
    ∃ s2, step jsrProbeState1 = Outcome.next s2 ∧
      s2.program_counter = (jsrProbeState.program_counter + 3) % 65536 ∧
      s2.stack_pointer = jsrProbeState.stack_pointer :=
  jsr_rts_returns jsrProbeState jsrProbeState1 jsrProbeState1 0x21 0x20
    (by decide) rfl rfl rfl rfl rfl rfl rfl rfl

/-! ### C9: STA/STX/STY frame effect -/

/-- C9: for every CPU state and every addressing mode on which the operand
resolver succeeds (all modes the store instructions are dispatched with),
`sta`, `stx` and `sty` write A, X and Y respectively to the resolved
effective address, change no other memory byte, and leave P, A, X, Y, SP
(and PC) unchanged. -/
theorem store_frame_effect :
    (∀ cpu mode addr, get_operand_address cpu mode = some addr → addr < MEMORY_LEN →
      ∃ cpu2, sta cpu mode = some cpu2 ∧ cpu2.memory addr = cpu.register_a ∧
        (∀ a, a ≠ addr → cpu2.memory a = cpu.memory a) ∧
        cpu2.status = cpu.status ∧ cpu2.register_a = cpu.register_a ∧
        cpu2.register_x = cpu.register_x ∧ cpu2.register_y = cpu.register_y ∧
        cpu2.stack_pointer = cpu.stack_pointer ∧
        cpu2.program_counter = cpu.program_counter) ∧
    (∀ cpu mode addr, get_operand_address cpu mode = some addr → addr < MEMORY_LEN →
      ∃ cpu2, stx cpu mode = some cpu2 ∧ cpu2.memory addr = cpu.register_x ∧
        (∀ a, a ≠ addr → cpu2.memory a = cpu.memory a) ∧
        cpu2.status = cpu.status ∧ cpu2.register_a = cpu.register_a ∧
        cpu2.register_x = cpu.register_x ∧ cpu2.register_y = cpu.register_y ∧
        cpu2.stack_pointer = cpu.stack_pointer ∧
        cpu2.program_counter = cpu.program_counter) ∧
    (∀ cpu mode addr, get_operand_address cpu mode = some addr → addr < MEMORY_LEN →
      ∃ cpu2, sty cpu mode = some cpu2 ∧ cpu2.memory addr = cpu.register_y ∧
        (∀ a, a ≠ addr → cpu2.memory a = cpu.memory a) ∧
        cpu2.status = cpu.status ∧ cpu2.register_a = cpu.register_a ∧
        cpu2.register_x = cpu.register_x ∧ cpu2.register_y = cpu.register_y ∧
        cpu2.stack_pointer = cpu.stack_pointer ∧
        cpu2.program_counter = cpu.program_counter) := by
  refine ⟨?_, ?_, ?_⟩ <;>
  · intro cpu mode addr haddr hbound
    first
    | simp only [sta, haddr, Option.bind_eq_bind, Option.some_bind]
    | simp only [stx, haddr, Option.bind_eq_bind, Option.some_bind]
    | simp only [sty, haddr, Option.bind_eq_bind, Option.some_bind]
    unfold mem_write
    rw [if_pos hbound]
    refine ⟨_, rfl, by simp, ?_, rfl, rfl, rfl, rfl, rfl, rfl⟩
    intro a ha
    simp [ha]

/-- State used to witness the store frame effect: A = 0x37, a ZeroPage
store with operand byte 0x10. -/
def staProbeState : CPU :=
  { register_a := 0x37, register_x := 0x41, register_y := 0x52,
    stack_pointer := 0xFD, status := 0x24, program_counter := 0x8000,
    memory := fun _ => 0x10 }

/-- Witness for `store_frame_effect`: STA ZeroPage at effective address
0x10 from `staProbeState`. -/
theorem store_frame_effect_witness :
    ∃ cpu2, sta staProbeState AddressingMode.ZeroPage = some cpu2 ∧
      cpu2.memory 0x10 = staProbeState.register_a ∧
      (∀ a, a ≠ 0x10 → cpu2.memory a = staProbeState.memory a) ∧
      cpu2.status = staProbeState.status ∧
      cpu2.register_a = staProbeState.register_a ∧
      cpu2.register_x = staProbeState.register_x ∧
      cpu2.register_y = staProbeState.register_y ∧
      cpu2.stack_pointer = staProbeState.stack_pointer ∧
      cpu2.program_counter = staProbeState.program_counter :=
  store_frame_effect.1 staProbeState AddressingMode.ZeroPage 0x10 rfl (by norm_num [MEMORY_LEN])

/-! ### C8: the opcode table covers exactly the 151 official opcodes -/

/-- The 151 official opcode bytes, as enumerated in the specification
glossary (one entry per mnemonic and addressing-mode combination of the
obelisk 6502 guide). -/
def officialOpcodeBytes : List Nat := [
    0x69, 0x65, 0x75, 0x6D, 0x7D, 0x79, 0x61, 0x71, 0x29, 0x25,
    0x35, 0x2D, 0x3D, 0x39, 0x21, 0x31, 0x0A, 0x06, 0x16, 0x0E,
    0x1E, 0x90, 0xB0, 0xF0, 0x24, 0x2C, 0x30, 0xD0, 0x10, 0x00,
    0x50, 0x70, 0x18, 0xD8, 0x58, 0xB8, 0xC9, 0xC5, 0xD5, 0xCD,
    0xDD, 0xD9, 0xC1, 0xD1, 0xE0, 0xE4, 0xEC, 0xC0, 0xC4, 0xCC,
    0xC6, 0xD6, 0xCE, 0xDE, 0xCA, 0x88, 0x49, 0x45, 0x55, 0x4D,
    0x5D, 0x59, 0x41, 0x51, 0xE6, 0xF6, 0xEE, 0xFE, 0xE8, 0xC8,
    0x4C, 0x6C, 0x20, 0xA9, 0xA5, 0xB5, 0xAD, 0xBD, 0xB9, 0xA1,
    0xB1, 0xA2, 0xA6, 0xB6, 0xAE, 0xBE, 0xA0, 0xA4, 0xB4, 0xAC,
    0xBC, 0x4A, 0x46, 0x56, 0x4E, 0x5E, 0xEA, 0x09, 0x05, 0x15,
    0x0D, 0x1D, 0x19, 0x01, 0x11, 0x48, 0x08, 0x68, 0x28, 0x2A,
    0x26, 0x36, 0x2E, 0x3E, 0x6A, 0x66, 0x76, 0x6E, 0x7E, 0x40,
    0x60, 0xE9, 0xE5, 0xF5, 0xED, 0xFD, 0xF9, 0xE1, 0xF1, 0x38,
    0xF8, 0x78, 0x85, 0x95, 0x8D, 0x9D, 0x99, 0x81, 0x91, 0x86,
    0x96, 0x8E, 0x84, 0x94, 0x8C, 0xAA, 0xA8, 0xBA, 0x8A, 0x9A,
    0x98]

set_option maxRecDepth 100000 in
set_option maxHeartbeats 2000000 in
/-- C8: the opcode-table lookup returns a descriptor for exactly the 151
official opcode bytes (a duplicate-free list of length 151) and nothing
for every other byte; when the fetched byte is not in the table the step
panics, reporting the offending byte and the PC (already advanced past the
opcode); a fetched BRK byte ends the run loop instead. -/
theorem opcode_table_spec :
    officialOpcodeBytes.length = 151 ∧ officialOpcodeBytes.Nodup ∧
    (∀ b, b < 256 → ((OpCode.get b).isSome ↔ b ∈ officialOpcodeBytes)) ∧
    (∀ cpu b, mem_read cpu cpu.program_counter = some b → OpCode.get b = none →
      step cpu = Outcome.illegal b ((cpu.program_counter + 1) % 65536)) ∧
    (∀ cpu, mem_read cpu cpu.program_counter = some 0x00 →
      ∃ cpu2, step cpu = Outcome.brk cpu2 ∧ runFuel 1 cpu = RunResult.halted cpu2) := by
  have hall : ((List.range 256).all fun b =>
      (OpCode.get b).isSome == officialOpcodeBytes.elem b) = true := by rfl
  refine ⟨rfl, by decide, ?_, ?_, ?_⟩
  · intro b hb
    have h2 := List.all_eq_true.mp hall b (List.mem_range.mpr hb)
    have h3 : (OpCode.get b).isSome = officialOpcodeBytes.elem b := eq_of_beq h2
    constructor
    · intro h
      exact List.mem_of_elem_eq_true (h3 ▸ h)
    · intro h
      rw [h3]
      exact List.elem_eq_true_of_mem h
  · intro cpu b hfetch hget
    simp only [step, hfetch, hget]
  · intro cpu hfetch
    have hg0 : OpCode.get 0x00 = some ⟨0x00, OpCodeName.BRK, 1, 7, AddressingMode.Implicit⟩ := rfl
    have hstep : step cpu = Outcome.brk
        { cpu with program_counter := ((cpu.program_counter + 1) % 65536 + 65535) % 65536 } := by
      simp only [step, hfetch, hg0]
    refine ⟨_, hstep, ?_⟩
    rw [show runFuel 1 cpu = (match step cpu with
        | Outcome.next c => runFuel 0 c
        | Outcome.brk c => RunResult.halted c
        | Outcome.illegal a b => RunResult.illegal a b
        | Outcome.crash => RunResult.crash) from rfl, hstep]

/-- Witness for `opcode_table_spec`: byte 0x02 is not an opcode; fetching
it makes the step abort reporting the byte and the advanced PC, and byte
0x00 is in the table (BRK halts). -/
theorem opcode_table_spec_witness :
    step { register_a := 0, register_x := 0, register_y := 0,
           stack_pointer := 0xFD, status := 0x24, program_counter := 0x8000,
           memory := fun _ => 0x02 } =
      Outcome.illegal 0x02 ((0x8000 + 1) % 65536) := by
  have h := opcode_table_spec.2.2.2.1
    { register_a := 0, register_x := 0, register_y := 0,
      stack_pointer := 0xFD, status := 0x24, program_counter := 0x8000,
      memory := fun _ => 0x02 } 0x02 rfl rfl
  exact h

end NES
